import Mathlib

/-!
# XInput reaction trainer: a shallow embedding of `main.cpp`

The program polls an XInput game pad at a fixed frame rate, shows a randomly
drawn button, and counts hits and misses.  This file embeds the parts of
`main.cpp` that carry state:

* `XController::get_buttons` / `XController::set_button_to_release`
  (the edge detector),
* `get_random_button` and `button_str`,
* the body of the `while (true)` loop of `main` (`tick`), its iteration over a
  list of polled states (`run`) and the program around it (`main`).

Conventions of the embedding.

* `uint32_t`, `DWORD`, `WORD`, `BYTE` values are natural numbers; the bitwise
  operators of the source are `&&&` and `|||` on `Nat`.  No operation of the
  source on these values can overflow (the widest value is an 18-bit mask).
* `button_miss` and `button_found` are `int`; `++` on them is modelled as
  two's-complement wrap-around on 32 bits (`int_incr`), which is what the
  increment does on the target platform.
* The pseudo random generator is a stream `distr : Nat → Fin 8` of the values
  returned by `(*distr)(*gen)` for `std::uniform_int_distribution<>(0, 7)`; the
  generator state is the number of values drawn so far.
* Every `XInputGetState` call of `get_buttons` is an input: the `XINPUT_STATE`
  left in the zero-initialised buffer (all zero when the call fails).
* `std::cout` is the list of the operands inserted with `<<`, in order
  (`std::endl` is the chunk `"\n"`).
* A detached `std::thread(&XController::vibrate, ...)` is recorded as the pair
  `(power, milliseconds)` appended to a log; the thread body is not modelled.
* Behaviour the C++ standard leaves undefined (`std::string` built from
  `NULL`) is `none`.
* The frame pacing (`next_frame`, `sleep_until`) has no effect on the state
  and is left out.
-/

namespace XInput

/-! ## Constants -/

/-- Modelled from the spec: `XINPUT_GAMEPAD_BACK` of the platform header
`xinput.h`, which is not part of the repository. -/
def XINPUT_GAMEPAD_BACK : Nat := 0x0020

/-- Modelled from the spec: `XINPUT_GAMEPAD_LEFT_SHOULDER` of the platform
header `xinput.h`, which is not part of the repository. -/
def XINPUT_GAMEPAD_LEFT_SHOULDER : Nat := 0x0100

/-- Modelled from the spec: `XINPUT_GAMEPAD_RIGHT_SHOULDER` of the platform
header `xinput.h`, which is not part of the repository. -/
def XINPUT_GAMEPAD_RIGHT_SHOULDER : Nat := 0x0200

/-- Modelled from the spec: `XINPUT_GAMEPAD_A` of the platform header
`xinput.h`, which is not part of the repository. -/
def XINPUT_GAMEPAD_A : Nat := 0x1000

/-- Modelled from the spec: `XINPUT_GAMEPAD_B` of the platform header
`xinput.h`, which is not part of the repository. -/
def XINPUT_GAMEPAD_B : Nat := 0x2000

/-- Modelled from the spec: `XINPUT_GAMEPAD_X` of the platform header
`xinput.h`, which is not part of the repository. -/
def XINPUT_GAMEPAD_X : Nat := 0x4000

/-- Modelled from the spec: `XINPUT_GAMEPAD_Y` of the platform header
`xinput.h`, which is not part of the repository. -/
def XINPUT_GAMEPAD_Y : Nat := 0x8000

/-- Modelled from the spec: `ERROR_SUCCESS` of the platform headers, which are
not part of the repository. -/
def ERROR_SUCCESS : Nat := 0

/-- The macro `XUSER_DEFAULT` (line 17). -/
def XUSER_DEFAULT : Nat := 0

/-- The macro `XINPUT_GAMEPAD_LEFT_TRIGGER` (line 18). -/
def XINPUT_GAMEPAD_LEFT_TRIGGER : Nat := 0x10000

/-- The macro `XINPUT_GAMEPAD_RIGHT_TRIGGER` (line 19). -/
def XINPUT_GAMEPAD_RIGHT_TRIGGER : Nat := 0x20000

/-- The macro `FRAME_RATE` (line 20). -/
def FRAME_RATE : Nat := 20

/-- Largest value of a 32-bit `int`. -/
def INT_MAX : Int := 2147483647

/-- Smallest value of a 32-bit `int`. -/
def INT_MIN : Int := -2147483648

/-! ## Data model -/

/-- The platform structure `XINPUT_GAMEPAD`, restricted to the fields that
`main.cpp` reads: the button word and the two trigger axes. -/
structure XINPUT_GAMEPAD where
  wButtons : Nat
  bLeftTrigger : Nat
  bRightTrigger : Nat
deriving DecidableEq, Repr

/-- The platform structure `XINPUT_STATE`: a packet number and a game pad
snapshot. -/
structure XINPUT_STATE where
  dwPacketNumber : Nat
  Gamepad : XINPUT_GAMEPAD
deriving DecidableEq, Repr

/-- Field widths of a polled state: `DWORD` packet number, `WORD` buttons,
`BYTE` triggers. -/
def XINPUT_STATE.wf (state : XINPUT_STATE) : Prop :=
  state.dwPacketNumber < 2 ^ 32 ∧ state.Gamepad.wButtons < 2 ^ 16 ∧
    state.Gamepad.bLeftTrigger < 2 ^ 8 ∧ state.Gamepad.bRightTrigger < 2 ^ 8

instance (state : XINPUT_STATE) : Decidable state.wf := by
  unfold XINPUT_STATE.wf; infer_instance

/-- The private members of `class XController` (lines 23-34). -/
structure XController where
  xuser : Nat
  last_packet : Nat
  button_to_release : Nat
deriving DecidableEq, Repr

/-- The constructor `XController::XController` (lines 37-41); `NULL` is `0`. -/
def XController.new (xuser : Nat) : XController :=
  { xuser := xuser % 256, last_packet := 0, button_to_release := 0 }

/-- The method `XController::is_connected` (lines 44-51), as a function of the
status returned by `XInputGetState`. -/
def is_connected (dwResult : Nat) : Bool :=
  dwResult == ERROR_SUCCESS

/-- The button word of a polled state with the two trigger bits folded in
(lines 79-84 of `XController::get_buttons`). -/
def held (state : XINPUT_STATE) : Nat :=
  let buttons := state.Gamepad.wButtons
  let buttons :=
    if state.Gamepad.bLeftTrigger ≠ 0 then buttons ||| XINPUT_GAMEPAD_LEFT_TRIGGER else buttons
  let buttons :=
    if state.Gamepad.bRightTrigger ≠ 0 then buttons ||| XINPUT_GAMEPAD_RIGHT_TRIGGER else buttons
  buttons

/-- The method `XController::get_buttons` (lines 70-95): the returned mask and
the controller object after the call.  `state` is what `XInputGetState` left
in the zeroed buffer. -/
def get_buttons (xc : XController) (state : XINPUT_STATE) : Nat × XController :=
  if xc.last_packet = state.dwPacketNumber then
    (0, xc)
  else
    let buttons := held state
    if xc.button_to_release ≠ 0 then
      if buttons &&& xc.button_to_release ≠ 0 then
        (0, xc)
      else
        (buttons, { xc with button_to_release := 0 })
    else
      (buttons, xc)

/-- The method `XController::set_button_to_release` (lines 98-100). -/
def set_button_to_release (xc : XController) (button_to_release : Nat) : XController :=
  { xc with button_to_release := button_to_release }

/-- The local array `buttons` of `get_random_button` (lines 104-109). -/
def random_buttons : Fin 8 → Nat :=
  ![XINPUT_GAMEPAD_LEFT_SHOULDER, XINPUT_GAMEPAD_RIGHT_SHOULDER,
    XINPUT_GAMEPAD_A, XINPUT_GAMEPAD_B,
    XINPUT_GAMEPAD_X, XINPUT_GAMEPAD_Y,
    XINPUT_GAMEPAD_LEFT_TRIGGER, XINPUT_GAMEPAD_RIGHT_TRIGGER]

/-- The function `get_random_button` (lines 103-111), as a function of the
index `(*distr)(*gen)` drawn from the distribution over `0..7`. -/
def get_random_button (index : Fin 8) : Nat :=
  random_buttons index

/-- The function `button_str` (lines 113-131); `none` is the final
`return NULL`. -/
def button_str (button : Nat) : Option String :=
  if button &&& XINPUT_GAMEPAD_LEFT_SHOULDER ≠ 0 then some "LS"
  else if button &&& XINPUT_GAMEPAD_RIGHT_SHOULDER ≠ 0 then some "RS"
  else if button &&& XINPUT_GAMEPAD_A ≠ 0 then some "A"
  else if button &&& XINPUT_GAMEPAD_B ≠ 0 then some "B"
  else if button &&& XINPUT_GAMEPAD_X ≠ 0 then some "X"
  else if button &&& XINPUT_GAMEPAD_Y ≠ 0 then some "Y"
  else if button &&& XINPUT_GAMEPAD_LEFT_TRIGGER ≠ 0 then some "LT"
  else if button &&& XINPUT_GAMEPAD_RIGHT_TRIGGER ≠ 0 then some "RT"
  else none

/-- The value of type `int` (32 bits, two's complement) that stands for the
mathematical integer `x`. -/
def int_wrap (x : Int) : Int :=
  (x + 2 ^ 31) % 2 ^ 32 - 2 ^ 31

/-- The `++` operator on an `int`: two's-complement wrap-around on 32 bits. -/
def int_incr (x : Int) : Int :=
  int_wrap (x + 1)

/-- Subtraction of two `size_t` values (64 bits), as in
`3 - button_str(button_to_find).size()`. -/
def size_sub (a b : Nat) : Nat :=
  (a % 2 ^ 64 + 2 ^ 64 - b % 2 ^ 64) % 2 ^ 64

/-- The local `spaces` of the loop (line 179): `std::string(3 - size, ' ')`. -/
def spaces (label : String) : String :=
  String.mk (List.replicate (size_sub 3 label.length) ' ')

/-- The escape sequence `"\033[1;32m"` (bold green). -/
def GREEN : String := "\x1b[1;32m"

/-- The escape sequence `"\033[1;31m"` (bold red). -/
def RED : String := "\x1b[1;31m"

/-- The escape sequence `"\033[0m"` (reset). -/
def RESET : String := "\x1b[0m"

/-- The locals of `main` that live across loop iterations, together with the
observable effects so far: the text inserted into `std::cout` and the
vibration threads started. -/
structure Game where
  xcontroller : XController
  gen : Nat
  button_miss : Int
  button_found : Int
  button_to_find : Nat
  cout : List String
  vibrations : List (Nat × Nat)
deriving DecidableEq, Repr

/-- Which branch of the loop body an iteration took: no event, the `break` of
the Back branch, the `button_found++` branch or the `button_miss++` branch. -/
inductive Outcome where
  | idle
  | stop
  | hit
  | miss
deriving DecidableEq, Repr

/-- An iteration scores an event when it takes the hit or the miss branch. -/
def Outcome.scored : Outcome → Bool
  | .hit => true
  | .miss => true
  | _ => false

/-- The lines 171-194 of the loop body: what `main` does with the value
`buttons` returned by `get_buttons`. -/
def dispatch (distr : Nat → Fin 8) (g : Game) (buttons : Nat) : Option (Outcome × Game) :=
  if buttons ≠ 0 then
    if buttons &&& XINPUT_GAMEPAD_BACK ≠ 0 then
      some (.stop, { g with cout := g.cout ++ ["\n"] })
    else
      match button_str g.button_to_find with
      | none => none
      | some label =>
        if buttons = g.button_to_find then
          let button_to_find := get_random_button (distr g.gen)
          match button_str button_to_find with
          | none => none
          | some next =>
            some (.hit,
              { g with
                button_found := int_incr g.button_found
                gen := g.gen + 1
                button_to_find := button_to_find
                cout := g.cout ++ [spaces label, GREEN, "OK", RESET, "\n", next]
                xcontroller := set_button_to_release g.xcontroller buttons })
        else
          some (.miss,
            { g with
              button_miss := int_incr g.button_miss
              vibrations := g.vibrations ++ [(30000 % 65536, 200)]
              cout := g.cout ++ [spaces label, RED, "KO", RESET, "\n", label]
              xcontroller := set_button_to_release g.xcontroller buttons })
  else
    some (.idle, g)

/-- One iteration of the `while (true)` loop (lines 167-197) on the state
polled by `get_buttons` in that iteration. -/
def tick (distr : Nat → Fin 8) (g : Game) (state : XINPUT_STATE) : Option (Outcome × Game) :=
  let r := get_buttons g.xcontroller state
  dispatch distr { g with xcontroller := r.2 } r.1

/-- The loop over the successive polled states: the branches taken and the
state reached.  The loop ends at the first `break`; when the list of polls
runs out the loop is still running. -/
def run (distr : Nat → Fin 8) : Game → List XINPUT_STATE → Option (List Outcome × Game)
  | g, [] => some ([], g)
  | g, state :: rest =>
    match tick distr g state with
    | none => none
    | some (.stop, g') => some ([.stop], g')
    | some (o, g') =>
      match run distr g' rest with
      | none => none
      | some (os, g'') => some (o :: os, g'')

/-- What the process has done: its output, the vibration threads it started
and its exit status (`none` while the loop is still running). -/
structure Process where
  cout : List String
  vibrations : List (Nat × Nat)
  status : Option Nat
deriving DecidableEq, Repr

/-- The loop from a given state followed by the tally of lines 199-200 and the
implicit `return 0` of `main`. -/
def main_loop (distr : Nat → Fin 8) (g : Game) (polls : List XINPUT_STATE) : Option Process :=
  match run distr g polls with
  | none => none
  | some (os, g') =>
    if Outcome.stop ∈ os then
      some
        { cout := g'.cout ++ ["Errors: ", toString g'.button_miss, "/", toString g'.button_found, "\n"]
          vibrations := g'.vibrations
          status := some 0 }
    else
      some { cout := g'.cout, vibrations := g'.vibrations, status := none }

/-- The state at the first evaluation of `while (true)` (lines 141-165) when
the controller is connected. -/
def loop_entry (distr : Nat → Fin 8) : Option Game :=
  let button_to_find := get_random_button (distr 0)
  match button_str button_to_find with
  | none => none
  | some label =>
    some
      { xcontroller := XController.new XUSER_DEFAULT
        gen := 1
        button_miss := 0
        button_found := 0
        button_to_find := button_to_find
        cout := ["XInput!", "\n", GREEN, "Connected", RESET, "\n", label]
        vibrations := [(30000 % 65536, 600)] }

/-- The function `main` (lines 134-200): `dwResult` is the status of the
`XInputGetState` call of `is_connected`, `polls` are the states polled by the
successive `get_buttons` calls. -/
def main (dwResult : Nat) (distr : Nat → Fin 8) (polls : List XINPUT_STATE) : Option Process :=
  if is_connected dwResult then
    match loop_entry distr with
    | none => none
    | some g => main_loop distr g polls
  else
    some
      { cout := ["XInput!", "\n", RED, "Disconnected", RESET, "\n"]
        vibrations := []
        status := some 1 }

/-- The eight buttons a challenge is drawn from. -/
def challenge_buttons : List Nat :=
  [XINPUT_GAMEPAD_LEFT_SHOULDER, XINPUT_GAMEPAD_RIGHT_SHOULDER, XINPUT_GAMEPAD_A,
    XINPUT_GAMEPAD_B, XINPUT_GAMEPAD_X, XINPUT_GAMEPAD_Y, XINPUT_GAMEPAD_LEFT_TRIGGER,
    XINPUT_GAMEPAD_RIGHT_TRIGGER]

/-- The values of an `int`. -/
def is_int (x : Int) : Prop :=
  INT_MIN ≤ x ∧ x ≤ INT_MAX

instance (x : Int) : Decidable (is_int x) := by
  unfold is_int; infer_instance

/-- A state of the running loop: the challenge is one of the eight buttons and
the two counters are `int` values. -/
def Running (g : Game) : Prop :=
  g.button_to_find ∈ challenge_buttons ∧ is_int g.button_miss ∧ is_int g.button_found

instance (g : Game) : Decidable (Running g) := by
  unfold Running; infer_instance

/-! ## Reading the output -/

/-- The button label vocabulary: the strings `button_str` can return. -/
def button_labels : List String :=
  ["LS", "RS", "A", "B", "X", "Y", "LT", "RT"]

/-- The button labels among the chunks inserted into `std::cout`, in the
order they were printed. -/
def printed_labels (cout : List String) : List String :=
  cout.filter (fun chunk => decide (chunk ∈ button_labels))

/-- What `k` hits in a row since loop entry leave behind: the hit counter
stands for `k`, there is no miss, `k + 1` values were drawn, the challenge is
the latest draw, and the labels printed are those of the draws `0..k`. -/
def after_hits (distr : Nat → Fin 8) (k : Nat) (g : Game) : Prop :=
  g.button_found = int_wrap k ∧ g.button_miss = 0 ∧ g.gen = k + 1 ∧
    g.button_to_find = get_random_button (distr k) ∧
    (printed_labels g.cout).map some =
      (List.range (k + 1)).map (fun i => button_str (get_random_button (distr i)))

/-! ## Concrete inputs -/

/-- The generator stream whose every draw is index 2 (button A). -/
def always_A : Nat → Fin 8 := fun _ => 2

/-- The generator stream `2, 3, 2, 3, ...` (buttons A, B, A, B, ...). -/
def A_then_B : Nat → Fin 8 := fun n => if n % 2 = 0 then 2 else 3

/-- A polled state with the given packet number and button word, both
triggers at rest. -/
def poll (packet buttons : Nat) : XINPUT_STATE :=
  { dwPacketNumber := packet
    Gamepad := { wButtons := buttons, bLeftTrigger := 0, bRightTrigger := 0 } }

/-- The polls of a player who `n` times presses `buttons` and lets go again:
each pair of polls reports a new packet, first with `buttons` held, then with
nothing held. -/
def press_release (buttons : Nat) : Nat → List XINPUT_STATE
  | 0 => []
  | n + 1 => poll 1 buttons :: poll 1 0 :: press_release buttons n

/-- The state at loop entry when the first draw is button A. -/
def entry_A : Game :=
  { xcontroller := XController.new XUSER_DEFAULT
    gen := 1
    button_miss := 0
    button_found := 0
    button_to_find := XINPUT_GAMEPAD_A
    cout := ["XInput!", "\n", GREEN, "Connected", RESET, "\n", "A"]
    vibrations := [(30000, 600)] }

/-- A controller that suppresses the combination A + B. -/
def holding_A_B : XController :=
  { xuser := 0, last_packet := 0, button_to_release := 0x3000 }

/-- The state `get_buttons` works on when `XInputGetState` fails: the buffer
as `SecureZeroMemory` left it (line 72). -/
def zero_state : XINPUT_STATE :=
  { dwPacketNumber := 0
    Gamepad := { wButtons := 0, bLeftTrigger := 0, bRightTrigger := 0 } }

/-- A status of `XInputGetState` other than `ERROR_SUCCESS`: the value the
platform names `ERROR_DEVICE_NOT_CONNECTED`. -/
def not_connected_status : Nat := 1167

/-- A polled state with the left trigger pulled to `lt`. -/
def poll_trigger (packet buttons lt : Nat) : XINPUT_STATE :=
  { dwPacketNumber := packet
    Gamepad := { wButtons := buttons, bLeftTrigger := lt, bRightTrigger := 0 } }

/-- The state at loop entry when the first draw is the left trigger. -/
def entry_LT : Game :=
  { xcontroller := XController.new XUSER_DEFAULT
    gen := 1
    button_miss := 0
    button_found := 0
    button_to_find := XINPUT_GAMEPAD_LEFT_TRIGGER
    cout := ["XInput!", "\n", GREEN, "Connected", RESET, "\n", "LT"]
    vibrations := [(30000, 600)] }

/-! ## Auxiliary facts -/

theorem challenge_buttons_facts :
    ∀ c ∈ challenge_buttons,
      c ≠ 0 ∧ c &&& XINPUT_GAMEPAD_BACK = 0 ∧ (button_str c).isSome = true := by
  decide

theorem get_random_button_mem (index : Fin 8) : get_random_button index ∈ challenge_buttons := by
  revert index; decide

theorem challenge_ne_zero {c : Nat} (hc : c ∈ challenge_buttons) : c ≠ 0 :=
  (challenge_buttons_facts c hc).1

theorem challenge_no_back {c : Nat} (hc : c ∈ challenge_buttons) :
    c &&& XINPUT_GAMEPAD_BACK = 0 :=
  (challenge_buttons_facts c hc).2.1

theorem challenge_label {c : Nat} (hc : c ∈ challenge_buttons) :
    ∃ label, button_str c = some label :=
  Option.isSome_iff_exists.mp (challenge_buttons_facts c hc).2.2

theorem int_incr_of_lt {x : Int} (hx : is_int x) (hlt : x < INT_MAX) : int_incr x = x + 1 := by
  unfold is_int INT_MIN at hx
  unfold INT_MAX at hlt
  unfold int_incr int_wrap
  omega

theorem int_incr_is_int (x : Int) : is_int (int_incr x) := by
  unfold is_int INT_MIN INT_MAX int_incr int_wrap
  omega

theorem int_incr_wrap (x : Int) : int_incr (int_wrap x) = int_wrap (x + 1) := by
  unfold int_incr int_wrap
  omega

theorem int_wrap_of_is_int {x : Int} (hx : is_int x) : int_wrap x = x := by
  unfold is_int INT_MIN INT_MAX at hx
  unfold int_wrap
  omega

theorem tick_eq (distr : Nat → Fin 8) (g : Game) (state : XINPUT_STATE) :
    tick distr g state =
      dispatch distr { g with xcontroller := (get_buttons g.xcontroller state).2 }
        (get_buttons g.xcontroller state).1 :=
  rfl

theorem dispatch_zero (distr : Nat → Fin 8) (g : Game) : dispatch distr g 0 = some (.idle, g) := by
  simp [dispatch]

theorem dispatch_back (distr : Nat → Fin 8) (g : Game) (e : Nat)
    (hb : e &&& XINPUT_GAMEPAD_BACK ≠ 0) :
    dispatch distr g e = some (.stop, { g with cout := g.cout ++ ["\n"] }) := by
  have he : e ≠ 0 := by
    rintro rfl
    simp at hb
  simp [dispatch, he, hb]

theorem dispatch_hit (distr : Nat → Fin 8) (g : Game) (label next : String)
    (hc : g.button_to_find ∈ challenge_buttons)
    (hl : button_str g.button_to_find = some label)
    (hn : button_str (get_random_button (distr g.gen)) = some next) :
    dispatch distr g g.button_to_find =
      some (.hit,
        { g with
          button_found := int_incr g.button_found
          gen := g.gen + 1
          button_to_find := get_random_button (distr g.gen)
          cout := g.cout ++ [spaces label, GREEN, "OK", RESET, "\n", next]
          xcontroller := set_button_to_release g.xcontroller g.button_to_find }) := by
  simp [dispatch, challenge_ne_zero hc, challenge_no_back hc, hl, hn]

theorem dispatch_miss (distr : Nat → Fin 8) (g : Game) (e : Nat) (label : String)
    (hl : button_str g.button_to_find = some label)
    (he : e ≠ 0) (hb : e &&& XINPUT_GAMEPAD_BACK = 0) (hne : e ≠ g.button_to_find) :
    dispatch distr g e =
      some (.miss,
        { g with
          button_miss := int_incr g.button_miss
          vibrations := g.vibrations ++ [(30000, 200)]
          cout := g.cout ++ [spaces label, RED, "KO", RESET, "\n", label]
          xcontroller := set_button_to_release g.xcontroller e }) := by
  simp [dispatch, he, hb, hl, hne]

theorem run_nil (distr : Nat → Fin 8) (g : Game) : run distr g [] = some ([], g) := rfl

theorem run_cons_stop (distr : Nat → Fin 8) (g g' : Game) (state : XINPUT_STATE)
    (rest : List XINPUT_STATE) (h : tick distr g state = some (.stop, g')) :
    run distr g (state :: rest) = some ([.stop], g') := by
  simp [run, h]

theorem run_cons_continue (distr : Nat → Fin 8) (g g' : Game) (o : Outcome)
    (state : XINPUT_STATE) (rest : List XINPUT_STATE)
    (h : tick distr g state = some (o, g')) (ho : o ≠ .stop) :
    run distr g (state :: rest) =
      (run distr g' rest).map (fun r => (o :: r.1, r.2)) := by
  cases o with
  | stop => exact absurd rfl ho
  | idle => simp only [run, h]; cases run distr g' rest <;> rfl
  | hit => simp only [run, h]; cases run distr g' rest <;> rfl
  | miss => simp only [run, h]; cases run distr g' rest <;> rfl

/-- A tick that polls a state whose packet number equals `last_packet` does
nothing. -/
theorem tick_same_packet (distr : Nat → Fin 8) (g : Game) (state : XINPUT_STATE)
    (h : g.xcontroller.last_packet = state.dwPacketNumber) :
    tick distr g state = some (.idle, g) := by
  simp [tick, get_buttons, h, dispatch]

/-- A tick that polls a state overlapping the suppressed mask does nothing. -/
theorem tick_suppressed (distr : Nat → Fin 8) (g : Game) (state : XINPUT_STATE)
    (h : held state &&& g.xcontroller.button_to_release ≠ 0) :
    tick distr g state = some (.idle, g) := by
  have hr : g.xcontroller.button_to_release ≠ 0 := by
    intro h0
    rw [h0] at h
    simp at h
  by_cases hp : g.xcontroller.last_packet = state.dwPacketNumber
  · exact tick_same_packet distr g state hp
  · simp [tick, get_buttons, hp, hr, h, dispatch]

/-- A tick from a running state whose poll yields a nonzero event without the
Back bit scores it and arms the suppression with that event. -/
theorem tick_event (distr : Nat → Fin 8) (g : Game) (state : XINPUT_STATE)
    (hc : g.button_to_find ∈ challenge_buttons)
    (he : (get_buttons g.xcontroller state).1 ≠ 0)
    (hb : (get_buttons g.xcontroller state).1 &&& XINPUT_GAMEPAD_BACK = 0) :
    ∃ o g', tick distr g state = some (o, g') ∧ o.scored = true ∧
      (o = .hit ↔ (get_buttons g.xcontroller state).1 = g.button_to_find) ∧
      g'.button_to_find ∈ challenge_buttons ∧
      g'.xcontroller.last_packet = g.xcontroller.last_packet ∧
      g'.xcontroller.button_to_release = (get_buttons g.xcontroller state).1 := by
  obtain ⟨label, hl⟩ := challenge_label hc
  have hlp : (get_buttons g.xcontroller state).2.last_packet = g.xcontroller.last_packet := by
    unfold get_buttons
    split_ifs <;> simp only []
    split_ifs <;> rfl
  by_cases heq : (get_buttons g.xcontroller state).1 = g.button_to_find
  · obtain ⟨next, hn⟩ := challenge_label (get_random_button_mem (distr g.gen))
    rw [tick_eq, heq]
    refine ⟨_, _, dispatch_hit distr _ label next hc hl hn, rfl, by simp, ?_, ?_, ?_⟩
    · exact get_random_button_mem _
    · simpa [set_button_to_release] using hlp
    · simp [set_button_to_release]
  · rw [tick_eq]
    refine ⟨_, _, dispatch_miss distr _ _ label hl he hb heq, rfl, by simp [heq], ?_, ?_, ?_⟩
    · exact hc
    · simpa [set_button_to_release] using hlp
    · simp [set_button_to_release]

/-- The loop is always entered in a defined state: connected controller,
counters at zero, first draw shown. -/
theorem loop_entry_some (distr : Nat → Fin 8) :
    ∃ label, button_str (get_random_button (distr 0)) = some label ∧
      loop_entry distr = some
        { xcontroller := XController.new XUSER_DEFAULT
          gen := 1
          button_miss := 0
          button_found := 0
          button_to_find := get_random_button (distr 0)
          cout := ["XInput!", "\n", GREEN, "Connected", RESET, "\n", label]
          vibrations := [(30000, 600)] } := by
  obtain ⟨label, hl⟩ := challenge_label (get_random_button_mem (distr 0))
  exact ⟨label, hl, by simp [loop_entry, hl]⟩

/-- The method `get_buttons` never writes `xuser` or `last_packet`, and leaves
`button_to_release` unchanged or zero. -/
theorem get_buttons_controller (xc : XController) (state : XINPUT_STATE) :
    (get_buttons xc state).2 = xc ∨
      (get_buttons xc state).2 = { xc with button_to_release := 0 } := by
  unfold get_buttons
  by_cases hp : xc.last_packet = state.dwPacketNumber
  · simp [hp]
  · by_cases hr : xc.button_to_release = 0
    · simp [hp, hr]
    · by_cases hh : held state &&& xc.button_to_release = 0
      · simp [hp, hr, hh]
      · simp [hp, hr, hh]

/-- The four branches of an iteration from a state whose challenge is one of
the eight buttons, by the value `e` that `get_buttons` returns:
`e = 0` is idle, the Back bit in `e` stops, `e` equal to the challenge is a
hit, anything else is a miss. -/
theorem tick_spec (distr : Nat → Fin 8) (g : Game) (state : XINPUT_STATE)
    (hc : g.button_to_find ∈ challenge_buttons) :
    ∃ label next, button_str g.button_to_find = some label ∧
      button_str (get_random_button (distr g.gen)) = some next ∧
      tick distr g state =
        if (get_buttons g.xcontroller state).1 = 0 then
          some (.idle, { g with xcontroller := (get_buttons g.xcontroller state).2 })
        else if (get_buttons g.xcontroller state).1 &&& XINPUT_GAMEPAD_BACK ≠ 0 then
          some (.stop,
            { g with
              xcontroller := (get_buttons g.xcontroller state).2
              cout := g.cout ++ ["\n"] })
        else if (get_buttons g.xcontroller state).1 = g.button_to_find then
          some (.hit,
            { g with
              button_found := int_incr g.button_found
              gen := g.gen + 1
              button_to_find := get_random_button (distr g.gen)
              cout := g.cout ++ [spaces label, GREEN, "OK", RESET, "\n", next]
              xcontroller :=
                set_button_to_release (get_buttons g.xcontroller state).2
                  (get_buttons g.xcontroller state).1 })
        else
          some (.miss,
            { g with
              button_miss := int_incr g.button_miss
              vibrations := g.vibrations ++ [(30000, 200)]
              cout := g.cout ++ [spaces label, RED, "KO", RESET, "\n", label]
              xcontroller :=
                set_button_to_release (get_buttons g.xcontroller state).2
                  (get_buttons g.xcontroller state).1 }) := by
  obtain ⟨label, hl⟩ := challenge_label hc
  obtain ⟨next, hn⟩ := challenge_label (get_random_button_mem (distr g.gen))
  refine ⟨label, next, hl, hn, ?_⟩
  rw [tick_eq]
  by_cases h0 : (get_buttons g.xcontroller state).1 = 0
  · rw [h0, if_pos rfl]
    exact dispatch_zero distr _
  · rw [if_neg h0]
    by_cases hb : (get_buttons g.xcontroller state).1 &&& XINPUT_GAMEPAD_BACK ≠ 0
    · rw [if_pos hb]
      exact dispatch_back distr _ _ hb
    · rw [if_neg hb]
      have hb' : (get_buttons g.xcontroller state).1 &&& XINPUT_GAMEPAD_BACK = 0 := by
        simpa using hb
      by_cases heq : (get_buttons g.xcontroller state).1 = g.button_to_find
      · rw [if_pos heq, heq]
        exact dispatch_hit distr _ label next hc hl hn
      · rw [if_neg heq]
        exact dispatch_miss distr _ _ label hl h0 hb' heq

/-- An iteration from a running state is defined and ends in a running
state. -/
theorem tick_running (distr : Nat → Fin 8) (g : Game) (state : XINPUT_STATE)
    (hrun : Running g) :
    ∃ o g', tick distr g state = some (o, g') ∧ Running g' := by
  obtain ⟨label, next, -, -, ht⟩ := tick_spec distr g state hrun.1
  rw [ht]
  split_ifs
  · exact ⟨_, _, rfl, hrun⟩
  · exact ⟨_, _, rfl, hrun⟩
  · exact ⟨_, _, rfl, get_random_button_mem _, hrun.2.1, int_incr_is_int _⟩
  · exact ⟨_, _, rfl, hrun.1, int_incr_is_int _, hrun.2.2⟩

/-- The loop from a running state is defined on every list of polls and ends
in a running state. -/
theorem run_running (distr : Nat → Fin 8) (polls : List XINPUT_STATE) :
    ∀ g : Game, Running g → ∃ os g', run distr g polls = some (os, g') ∧ Running g' := by
  induction polls with
  | nil => intro g hg; exact ⟨[], g, rfl, hg⟩
  | cons state rest ih =>
    intro g hg
    obtain ⟨o, g1, ht, hg1⟩ := tick_running distr g state hg
    by_cases ho : o = .stop
    · subst ho
      exact ⟨_, _, run_cons_stop distr g g1 state rest ht, hg1⟩
    · obtain ⟨os, g2, hr, hg2⟩ := ih g1 hg1
      refine ⟨o :: os, g2, ?_, hg2⟩
      rw [run_cons_continue distr g g1 o state rest ht ho, hr]
      rfl

/-- The state at loop entry is a running state. -/
theorem loop_entry_running (distr : Nat → Fin 8) :
    ∃ g0, loop_entry distr = some g0 ∧ Running g0 := by
  obtain ⟨label, -, h⟩ := loop_entry_some distr
  have hz : is_int 0 := by decide
  exact ⟨_, h, get_random_button_mem _, hz, hz⟩

theorem challenge_one_bit : ∀ c ∈ challenge_buttons, ∃ i, i < 18 ∧ c = 2 ^ i := by
  decide

theorem challenge_label_facts :
    ∀ c ∈ challenge_buttons,
      (button_str c).map
          (fun l => decide (l ∈ button_labels ∧ spaces l ∉ button_labels)) = some true := by
  decide

theorem label_mem {c : Nat} {label : String} (hc : c ∈ challenge_buttons)
    (hl : button_str c = some label) : label ∈ button_labels ∧ spaces label ∉ button_labels := by
  have h := challenge_label_facts c hc
  rw [hl] at h
  simpa using h

theorem printed_labels_append (a b : List String) :
    printed_labels (a ++ b) = printed_labels a ++ printed_labels b := by
  simp [printed_labels]

theorem printed_labels_hit {label next : String} (hl : spaces label ∉ button_labels)
    (hn : next ∈ button_labels) :
    printed_labels [spaces label, GREEN, "OK", RESET, "\n", next] = [next] := by
  have hG : GREEN ∉ button_labels := by decide
  have hO : "OK" ∉ button_labels := by decide
  have hR : RESET ∉ button_labels := by decide
  have hN : "\n" ∉ button_labels := by decide
  simp [printed_labels, List.filter, hl, hn, hG, hO, hR, hN]

theorem printed_labels_entry {label : String} (hn : label ∈ button_labels) :
    printed_labels ["XInput!", "\n", GREEN, "Connected", RESET, "\n", label] = [label] := by
  have hG : GREEN ∉ button_labels := by decide
  have hX : "XInput!" ∉ button_labels := by decide
  have hC : "Connected" ∉ button_labels := by decide
  have hR : RESET ∉ button_labels := by decide
  have hN : "\n" ∉ button_labels := by decide
  simp [printed_labels, List.filter, hn, hG, hX, hC, hR, hN]

/-- The state at loop entry is the state after zero hits. -/
theorem loop_entry_after_hits (distr : Nat → Fin 8) :
    ∃ g0, loop_entry distr = some g0 ∧ Running g0 ∧ after_hits distr 0 g0 := by
  obtain ⟨label, hl, h⟩ := loop_entry_some distr
  have hz : is_int 0 := by decide
  have hw : (0 : Int) = int_wrap ((0 : Nat) : Int) := by decide
  refine ⟨_, h, ⟨get_random_button_mem _, hz, hz⟩, hw, rfl, rfl, rfl, ?_⟩
  simp only []
  rw [printed_labels_entry (label_mem (get_random_button_mem _) hl).1]
  simp [List.range_succ, hl]

/-- A run whose ticks only idle or hit moves from "after `k` hits" to
"after `k` plus the number of hits in the run". -/
theorem run_only_hits (distr : Nat → Fin 8) (polls : List XINPUT_STATE) :
    ∀ (g g' : Game) (os : List Outcome) (k : Nat), after_hits distr k g →
      run distr g polls = some (os, g') → (∀ o ∈ os, o = .idle ∨ o = .hit) →
      after_hits distr (k + os.count .hit) g' := by
  induction polls with
  | nil =>
    intro g g' os k hk hr _
    rw [run_nil] at hr
    obtain ⟨rfl, rfl⟩ : [] = os ∧ g = g' := by simpa using hr
    simpa using hk
  | cons state rest ih =>
    intro g g' os k hk hr hall
    obtain ⟨hfound, hmiss, hgen, hfind, hout⟩ := hk
    have hc : g.button_to_find ∈ challenge_buttons := by
      rw [hfind]; exact get_random_button_mem _
    obtain ⟨label, next, hl, hn, ht⟩ := tick_spec distr g state hc
    split_ifs at ht with h0 hb heq
    · -- no event: only the controller changes
      rw [run_cons_continue distr g _ .idle state rest ht (by decide)] at hr
      obtain ⟨r, hr1, hr2⟩ := Option.map_eq_some'.mp hr
      obtain ⟨rfl, rfl⟩ : Outcome.idle :: r.1 = os ∧ r.2 = g' := by simpa using hr2
      have hk' : after_hits distr k
          { g with xcontroller := (get_buttons g.xcontroller state).2 } :=
        ⟨hfound, hmiss, hgen, hfind, hout⟩
      have := ih _ r.2 r.1 k hk' hr1 (fun o ho => hall o (List.mem_cons_of_mem _ ho))
      simpa using this
    · -- Back: the run ends with a stop, which is neither idle nor hit
      rw [run_cons_stop distr g _ state rest ht] at hr
      obtain ⟨rfl, -⟩ : [Outcome.stop] = os ∧ _ = g' := by simpa using hr
      have := hall .stop (by simp)
      simp at this
    · -- hit: one more draw, one more label
      rw [run_cons_continue distr g _ .hit state rest ht (by decide)] at hr
      obtain ⟨r, hr1, hr2⟩ := Option.map_eq_some'.mp hr
      obtain ⟨rfl, rfl⟩ : Outcome.hit :: r.1 = os ∧ r.2 = g' := by simpa using hr2
      have hlab := label_mem hc hl
      have hnext := label_mem (get_random_button_mem (distr g.gen)) hn
      have hk1 : after_hits distr (k + 1)
          { g with
            button_found := int_incr g.button_found
            gen := g.gen + 1
            button_to_find := get_random_button (distr g.gen)
            cout := g.cout ++ [spaces label, GREEN, "OK", RESET, "\n", next]
            xcontroller :=
              set_button_to_release (get_buttons g.xcontroller state).2
                (get_buttons g.xcontroller state).1 } := by
        refine ⟨?_, hmiss, ?_, ?_, ?_⟩
        · simp only [hfound]
          rw [int_incr_wrap]
          push_cast
          rfl
        · simp only [hgen]
        · simp only [hgen]
        · simp only [printed_labels_append, printed_labels_hit hlab.2 hnext.1, List.map_append,
            hout]
          rw [List.range_succ (k + 1), List.map_append]
          rw [hgen] at hn
          simp [hn]
      have := ih _ r.2 r.1 (k + 1) hk1 hr1 (fun o ho => hall o (List.mem_cons_of_mem _ ho))
      have hcount : k + (Outcome.hit :: r.1).count .hit = k + 1 + r.1.count .hit := by
        simp [List.count_cons]
        omega
      rw [hcount]
      exact this
    · -- miss: excluded by the hypothesis on the outcomes
      rw [run_cons_continue distr g _ .miss state rest ht (by decide)] at hr
      obtain ⟨r, hr1, hr2⟩ := Option.map_eq_some'.mp hr
      obtain ⟨rfl, -⟩ : Outcome.miss :: r.1 = os ∧ r.2 = g' := by simpa using hr2
      have := hall .miss (by simp)
      simp at this

/-- One press-and-release of `e` (nonzero, without the Back bit) under the
generator `always_A`, from a state with challenge A and a controller at rest:
the press is scored (a hit when `e` is A, a miss otherwise), the release is
idle and clears the suppression, and the challenge is A again. -/
theorem press_release_step (e : Nat) (he : e ≠ 0) (hb : e &&& XINPUT_GAMEPAD_BACK = 0)
    (g : Game) (hc : g.button_to_find = XINPUT_GAMEPAD_A)
    (hlp : g.xcontroller.last_packet = 0) (hbtr : g.xcontroller.button_to_release = 0) :
    ∃ o g2, (o = if e = XINPUT_GAMEPAD_A then Outcome.hit else Outcome.miss) ∧
      g2.button_to_find = XINPUT_GAMEPAD_A ∧
      g2.xcontroller.last_packet = 0 ∧ g2.xcontroller.button_to_release = 0 ∧
      (g2.button_found = if e = XINPUT_GAMEPAD_A then int_incr g.button_found
        else g.button_found) ∧
      (g2.button_miss = if e = XINPUT_GAMEPAD_A then g.button_miss
        else int_incr g.button_miss) ∧
      ∀ rest, run always_A g (poll 1 e :: poll 1 0 :: rest) =
        (run always_A g2 rest).map (fun r => (o :: Outcome.idle :: r.1, r.2)) := by
  have hcm : g.button_to_find ∈ challenge_buttons := by rw [hc]; decide
  have hg1 : get_buttons g.xcontroller (poll 1 e) = (e, g.xcontroller) := by
    simp [get_buttons, hlp, hbtr, poll, held]
  obtain ⟨label, next, -, -, ht⟩ := tick_spec always_A g (poll 1 e) hcm
  rw [hg1] at ht
  simp only [] at ht
  rw [if_neg he, if_neg (by simp [hb])] at ht
  -- the state after the press, whichever branch was taken
  have key : ∀ (o : Outcome) (g1 : Game), tick always_A g (poll 1 e) = some (o, g1) →
      o ≠ .stop → g1.button_to_find = XINPUT_GAMEPAD_A →
      g1.xcontroller = set_button_to_release g.xcontroller e →
      ∀ rest, run always_A g (poll 1 e :: poll 1 0 :: rest) =
        (run always_A { g1 with xcontroller := { g1.xcontroller with button_to_release := 0 } }
          rest).map (fun r => (o :: Outcome.idle :: r.1, r.2)) := by
    intro o g1 ht1 ho hc1 hx1 rest
    have hcm1 : g1.button_to_find ∈ challenge_buttons := by rw [hc1]; decide
    have hg2 : get_buttons g1.xcontroller (poll 1 0) =
        (0, { g1.xcontroller with button_to_release := 0 }) := by
      simp [get_buttons, hx1, set_button_to_release, hlp, he, poll, held]
    obtain ⟨l1, n1, -, -, ht2⟩ := tick_spec always_A g1 (poll 1 0) hcm1
    rw [hg2] at ht2
    simp only [if_true] at ht2
    rw [run_cons_continue always_A g g1 o (poll 1 e) _ ht1 ho,
      run_cons_continue always_A g1 _ .idle (poll 1 0) rest ht2 (by decide)]
    cases run always_A
        { g1 with xcontroller := { g1.xcontroller with button_to_release := 0 } } rest <;> rfl
  by_cases heq : e = XINPUT_GAMEPAD_A
  · rw [if_pos (by rw [heq, hc])] at ht
    refine ⟨_, _, by rw [if_pos heq], ?_, ?_, ?_, by rw [if_pos heq], by rw [if_pos heq],
      key _ _ ht (by decide) rfl rfl⟩
    · rfl
    · simpa [set_button_to_release] using hlp
    · rfl
  · rw [if_neg (by rw [hc]; exact heq)] at ht
    refine ⟨_, _, by rw [if_neg heq], ?_, ?_, ?_, by rw [if_neg heq], by rw [if_neg heq],
      key _ _ ht (by decide) hc rfl⟩
    · exact hc
    · simpa [set_button_to_release] using hlp
    · rfl

/-- Pressing and releasing the challenge A `n` times under `always_A` gives
`n` hits and nothing else. -/
theorem run_press_release_A (n : Nat) :
    ∀ g : Game, g.button_to_find = XINPUT_GAMEPAD_A → g.xcontroller.last_packet = 0 →
      g.xcontroller.button_to_release = 0 →
      ∃ os g', run always_A g (press_release XINPUT_GAMEPAD_A n) = some (os, g') ∧
        (∀ o ∈ os, o = .idle ∨ o = .hit) ∧ os.count .hit = n ∧
        g'.button_to_find = XINPUT_GAMEPAD_A ∧
        g'.xcontroller.last_packet = 0 ∧ g'.xcontroller.button_to_release = 0 := by
  induction n with
  | zero => intro g hc hlp hbtr; exact ⟨[], g, rfl, by simp, rfl, hc, hlp, hbtr⟩
  | succ n ih =>
    intro g hc hlp hbtr
    obtain ⟨o, g2, ho, hc2, hlp2, hbtr2, -, -, hrun⟩ :=
      press_release_step XINPUT_GAMEPAD_A (by decide) (by decide) g hc hlp hbtr
    rw [if_pos rfl] at ho
    subst ho
    obtain ⟨os, g', hr, hall, hcount, hc', hlp', hbtr'⟩ := ih g2 hc2 hlp2 hbtr2
    refine ⟨.hit :: .idle :: os, g', ?_, ?_, ?_, hc', hlp', hbtr'⟩
    · show run always_A g (poll 1 XINPUT_GAMEPAD_A :: poll 1 0 :: _) = _
      rw [hrun, hr]
      rfl
    · intro o ho
      simp only [List.mem_cons] at ho
      rcases ho with rfl | rfl | ho
      · exact Or.inr rfl
      · exact Or.inl rfl
      · exact hall o ho
    · simp [List.count_cons, hcount]

/-- Pressing and releasing B `n` times under `always_A` (challenge A) gives
`n` misses: the loop keeps running and the miss counter is incremented `n`
times. -/
theorem run_press_release_B (n : Nat) :
    ∀ (g : Game) (m : Int), g.button_to_find = XINPUT_GAMEPAD_A →
      g.xcontroller.last_packet = 0 → g.xcontroller.button_to_release = 0 →
      g.button_miss = int_wrap m → is_int g.button_found →
      ∃ os g', run always_A g (press_release XINPUT_GAMEPAD_B n) = some (os, g') ∧
        Outcome.stop ∉ os ∧ g'.button_to_find = XINPUT_GAMEPAD_A ∧
        g'.xcontroller.last_packet = 0 ∧ g'.xcontroller.button_to_release = 0 ∧
        g'.button_miss = int_wrap (m + n) ∧ is_int g'.button_found := by
  induction n with
  | zero => intro g m hc hlp hbtr hm hf; exact ⟨[], g, rfl, by simp, hc, hlp, hbtr, by simpa using hm, hf⟩
  | succ n ih =>
    intro g m hc hlp hbtr hm hf
    obtain ⟨o, g2, ho, hc2, hlp2, hbtr2, hf2, hm2, hrun⟩ :=
      press_release_step XINPUT_GAMEPAD_B (by decide) (by decide) g hc hlp hbtr
    rw [if_neg (by decide)] at ho hf2 hm2
    subst ho
    rw [hm, int_incr_wrap] at hm2
    obtain ⟨os, g', hr, hstop, hc', hlp', hbtr', hm', hf'⟩ :=
      ih g2 (m + 1) hc2 hlp2 hbtr2 hm2 (by rw [hf2]; exact hf)
    refine ⟨.miss :: .idle :: os, g', ?_, ?_, hc', hlp', hbtr', ?_, hf'⟩
    · show run always_A g (poll 1 XINPUT_GAMEPAD_B :: poll 1 0 :: _) = _
      rw [hrun, hr]
      rfl
    · simp [hstop]
    · rw [hm']
      push_cast
      congr 1
      ring

/-! ## The claims -/

/-! ### C1 -/

/-- C1 (debounce idempotence): from a running state whose controller is in its
initial state (`last_packet = 0`, `button_to_release = 0`), two consecutive
ticks polling the same nonzero held mask `m` without the Back bit under two
distinct packet numbers both continue the loop, and exactly one of the two
scores an event (a hit or a miss); the other one sees no event. -/
theorem C1_debounce_idempotence (distr : Nat → Fin 8) (g : Game) (s1 s2 : XINPUT_STATE)
    (m : Nat) (hrun : Running g)
    (hlp : g.xcontroller.last_packet = 0) (hbtr : g.xcontroller.button_to_release = 0)
    (hm : m ≠ 0) (hback : m &&& XINPUT_GAMEPAD_BACK = 0)
    (h1 : held s1 = m) (h2 : held s2 = m)
    (hseq : s1.dwPacketNumber ≠ s2.dwPacketNumber) :
    ∃ o1 o2 g1 g2, tick distr g s1 = some (o1, g1) ∧ tick distr g1 s2 = some (o2, g2) ∧
      run distr g [s1, s2] = some ([o1, o2], g2) ∧
      [o1, o2].countP Outcome.scored = 1 ∧ [o1, o2].count Outcome.idle = 1 := by
  have hc := hrun.1
  by_cases hp1 : s1.dwPacketNumber = 0
  · -- the first poll looks like "no new packet"; the second one is scored
    have ht1 : tick distr g s1 = some (.idle, g) :=
      tick_same_packet distr g s1 (by rw [hlp, hp1])
    have hp2 : g.xcontroller.last_packet ≠ s2.dwPacketNumber := by
      rw [hlp]; intro h; exact hseq (by rw [hp1, ← h])
    have hg : (get_buttons g.xcontroller s2).1 = m := by
      simp [get_buttons, hp2, hbtr, h2]
    obtain ⟨o2, g2, ht2, hs2, -⟩ :=
      tick_event distr g s2 hc (by rw [hg]; exact hm) (by rw [hg]; exact hback)
    refine ⟨.idle, o2, g, g2, ht1, ht2, ?_, ?_, ?_⟩
    · rw [run_cons_continue distr g g .idle s1 [s2] ht1 (by decide)]
      have hne : o2 ≠ .stop := by rintro rfl; exact absurd hs2 (by decide)
      rw [run_cons_continue distr g g2 o2 s2 [] ht2 hne, run_nil]
      rfl
    · cases o2 <;> simp_all [Outcome.scored]
    · cases o2 <;> simp_all [Outcome.scored]
  · -- the first poll is scored and arms the suppression; the second is silent
    have hp1' : g.xcontroller.last_packet ≠ s1.dwPacketNumber := by
      rw [hlp]; exact fun h => hp1 h.symm
    have hg : (get_buttons g.xcontroller s1).1 = m := by
      simp [get_buttons, hp1', hbtr, h1]
    obtain ⟨o1, g1, ht1, hs1, -, -, -, hr1⟩ :=
      tick_event distr g s1 hc (by rw [hg]; exact hm) (by rw [hg]; exact hback)
    have ht2 : tick distr g1 s2 = some (.idle, g1) := by
      apply tick_suppressed
      rw [hr1, hg, h2, Nat.and_self]
      exact hm
    have hne : o1 ≠ .stop := by rintro rfl; exact absurd hs1 (by decide)
    refine ⟨o1, .idle, g1, g1, ht1, ht2, ?_, ?_, ?_⟩
    · rw [run_cons_continue distr g g1 o1 s1 [s2] ht1 hne]
      rw [run_cons_continue distr g1 g1 .idle s2 [] ht2 (by decide), run_nil]
      rfl
    · cases o1 <;> simp_all [Outcome.scored]
    · cases o1 <;> simp_all [Outcome.scored]

/-- Witness of C1: at loop entry with challenge A, polling A under packet
numbers 1 and 2 scores once. -/
theorem C1_debounce_idempotence_witness :
    ∃ o1 o2 g1 g2, tick always_A entry_A (poll 1 0x1000) = some (o1, g1) ∧
      tick always_A g1 (poll 2 0x1000) = some (o2, g2) ∧
      run always_A entry_A [poll 1 0x1000, poll 2 0x1000] = some ([o1, o2], g2) ∧
      [o1, o2].countP Outcome.scored = 1 ∧ [o1, o2].count Outcome.idle = 1 :=
  C1_debounce_idempotence always_A entry_A (poll 1 0x1000) (poll 2 0x1000) 0x1000
    (by decide) rfl rfl (by decide) (by decide) (by decide) (by decide) (by decide)

/-! ### C2 -/

/-- C2 (code evaluated at the failing input): at loop entry, a tick polls
packet 5 with nothing held and emits nothing; the next tick polls the same
packet number 5 with A held, and `get_buttons` returns A (not 0), which the
loop scores as a hit.  `last_packet` is still 0 after both calls. -/
theorem C2_repeated_packet_is_emitted :
    loop_entry always_A = some entry_A ∧
      tick always_A entry_A (poll 5 0) = some (.idle, entry_A) ∧
      (poll 5 0).dwPacketNumber = (poll 5 XINPUT_GAMEPAD_A).dwPacketNumber ∧
      (get_buttons entry_A.xcontroller (poll 5 XINPUT_GAMEPAD_A)).1 = XINPUT_GAMEPAD_A ∧
      (get_buttons entry_A.xcontroller (poll 5 XINPUT_GAMEPAD_A)).2.last_packet = 0 ∧
      (tick always_A entry_A (poll 5 XINPUT_GAMEPAD_A)).map Prod.fst = some .hit := by
  decide

/-! ### C3 -/

/-- C3 fails as stated: after the combination A + B was acted on at loop
entry, `button_to_release = A|B`; a new packet that holds only A no longer
contains the suppressed mask (`h & s = A ≠ s`), yet `get_buttons` returns 0
and keeps `button_to_release` instead of clearing it and returning `h`. -/
theorem C3_release_rule_counterexample :
    (tick always_A entry_A (poll 1 0x3000)).map (fun r => r.2.xcontroller) = some holding_A_B ∧
      holding_A_B.last_packet ≠ (poll 1 0x1000).dwPacketNumber ∧
      holding_A_B.button_to_release ≠ 0 ∧
      held (poll 1 0x1000) &&& holding_A_B.button_to_release ≠ holding_A_B.button_to_release ∧
      get_buttons holding_A_B (poll 1 0x1000) = (0, holding_A_B) ∧
      get_buttons holding_A_B (poll 1 0x1000) ≠
        (held (poll 1 0x1000), { holding_A_B with button_to_release := 0 }) := by
  decide

/-- C3 (amended release rule): for a sample with a new packet number polled
while `button_to_release = s` is nonzero, with folded held mask `h`: if `h`
shares a bit with `s` (`h & s ≠ 0`) then `get_buttons` returns 0 and leaves
the controller, `button_to_release` included, unchanged; if `h` shares no bit
with `s` (`h & s = 0`) then it clears `button_to_release` and returns `h` in
the same call, which is nonzero exactly when `h` is. -/
theorem C3_release_rule (xc : XController) (state : XINPUT_STATE)
    (hnew : xc.last_packet ≠ state.dwPacketNumber) (hs : xc.button_to_release ≠ 0) :
    (held state &&& xc.button_to_release ≠ 0 → get_buttons xc state = (0, xc)) ∧
      (held state &&& xc.button_to_release = 0 →
        get_buttons xc state = (held state, { xc with button_to_release := 0 }) ∧
          ((get_buttons xc state).1 ≠ 0 ↔ held state ≠ 0)) := by
  constructor
  · intro h
    simp [get_buttons, hnew, hs, h]
  · intro h
    simp [get_buttons, hnew, hs, h]

/-- Witness of C3: suppressing A|B, a new packet holding A is swallowed. -/
theorem C3_release_rule_witness :
    (held (poll 1 0x1000) &&& holding_A_B.button_to_release ≠ 0 →
        get_buttons holding_A_B (poll 1 0x1000) = (0, holding_A_B)) ∧
      (held (poll 1 0x1000) &&& holding_A_B.button_to_release = 0 →
        get_buttons holding_A_B (poll 1 0x1000) =
            (held (poll 1 0x1000), { holding_A_B with button_to_release := 0 }) ∧
          ((get_buttons holding_A_B (poll 1 0x1000)).1 ≠ 0 ↔ held (poll 1 0x1000) ≠ 0)) :=
  C3_release_rule holding_A_B (poll 1 0x1000) (by decide) (by decide)

/-! ### C4 -/

/-- C4 fails as stated: after 2147483647 misses (B pressed and released that
many times while the challenge is A) the loop is still running with miss
count `M = 2147483647`; the next event B is a miss again, but the `int`
counter cannot hold `M + 1` and wraps to `-2147483648`. -/
theorem C4_miss_step_counterexample :
    loop_entry always_A = some entry_A ∧
      ∃ os g, run always_A entry_A (press_release XINPUT_GAMEPAD_B 2147483647) = some (os, g) ∧
        Outcome.stop ∉ os ∧ Running g ∧ g.button_miss = 2147483647 ∧
        (get_buttons g.xcontroller (poll 1 XINPUT_GAMEPAD_B)).1 = XINPUT_GAMEPAD_B ∧
        XINPUT_GAMEPAD_B ≠ 0 ∧ XINPUT_GAMEPAD_B &&& XINPUT_GAMEPAD_BACK = 0 ∧
        XINPUT_GAMEPAD_B ≠ g.button_to_find ∧
        (tick always_A g (poll 1 XINPUT_GAMEPAD_B)).map (fun r => (r.1, r.2.button_miss)) =
          some (.miss, -2147483648) ∧
        (tick always_A g (poll 1 XINPUT_GAMEPAD_B)).map (fun r => r.2.button_miss) ≠
          some (g.button_miss + 1) := by
  refine ⟨by decide, ?_⟩
  obtain ⟨os, g, hr, hstop, hc, hlp, hbtr, hm, hf⟩ :=
    run_press_release_B 2147483647 entry_A 0 rfl rfl rfl (by decide) (by decide)
  have hm' : g.button_miss = 2147483647 := by
    rw [hm]; decide
  have hcm : g.button_to_find ∈ challenge_buttons := by rw [hc]; decide
  have hev : (get_buttons g.xcontroller (poll 1 XINPUT_GAMEPAD_B)).1 = XINPUT_GAMEPAD_B := by
    simp [get_buttons, hlp, hbtr, poll, held]
  have hne : XINPUT_GAMEPAD_B ≠ g.button_to_find := by rw [hc]; decide
  obtain ⟨label, next, -, -, ht⟩ := tick_spec always_A g (poll 1 XINPUT_GAMEPAD_B) hcm
  rw [hev, if_neg (by decide), if_neg (by decide), if_neg hne] at ht
  have hwrap : int_incr 2147483647 = -2147483648 := by decide
  refine ⟨os, g, hr, hstop, ⟨hcm, ?_, hf⟩, hm', hev, by decide, by decide, hne, ?_, ?_⟩
  · rw [hm']; decide
  · rw [ht]
    simp [hm', hwrap]
  · rw [ht]
    simp [hm', hwrap]

/-- C4 (amended miss step): in a running state with challenge `c`, hit count
`H` and miss count `M < INT_MAX`, a tick whose event `e` is nonzero, lacks the
Back bit and differs from `c` (a combination containing `c` included) takes
the miss branch: afterwards the miss count is `M + 1`, the hit count is `H`,
the challenge is `c`, and exactly one vibration was started, with power 30000
and duration 200 ms, shorter than the 600 ms pulse started at connection. -/
theorem C4_miss_step (distr : Nat → Fin 8) (g : Game) (state : XINPUT_STATE) (e : Nat)
    (hrun : Running g) (hmax : g.button_miss < INT_MAX)
    (hev : (get_buttons g.xcontroller state).1 = e)
    (he : e ≠ 0) (hb : e &&& XINPUT_GAMEPAD_BACK = 0) (hne : e ≠ g.button_to_find) :
    ∃ g', tick distr g state = some (.miss, g') ∧
      g'.button_miss = g.button_miss + 1 ∧
      g'.button_found = g.button_found ∧
      g'.button_to_find = g.button_to_find ∧
      g'.vibrations = g.vibrations ++ [(30000, 200)] ∧
      ∃ g0, loop_entry distr = some g0 ∧ g0.vibrations = [(30000, 600)] ∧ 200 < 600 := by
  obtain ⟨label, hl⟩ := challenge_label hrun.1
  subst hev
  rw [tick_eq]
  refine ⟨_, dispatch_miss distr _ _ label hl he hb hne, ?_, rfl, rfl, rfl, ?_⟩
  · exact int_incr_of_lt hrun.2.1 hmax
  · obtain ⟨first, -, hf⟩ := loop_entry_some distr
    exact ⟨_, hf, rfl, by decide⟩

/-- Witness of C4: challenge A, the combination A + B arrives. -/
theorem C4_miss_step_witness :
    ∃ g', tick always_A entry_A (poll 1 0x3000) = some (.miss, g') ∧
      g'.button_miss = entry_A.button_miss + 1 ∧
      g'.button_found = entry_A.button_found ∧
      g'.button_to_find = entry_A.button_to_find ∧
      g'.vibrations = entry_A.vibrations ++ [(30000, 200)] ∧
      ∃ g0, loop_entry always_A = some g0 ∧ g0.vibrations = [(30000, 600)] ∧ 200 < 600 :=
  C4_miss_step always_A entry_A (poll 1 0x3000) 0x3000 (by decide) (by decide) (by decide)
    (by decide) (by decide) (by decide)

/-! ### C5 -/

/-- C5 fails as stated for `k = 2147483648`: with every draw equal to A,
pressing and releasing A 2147483648 times gives 2147483648 events, each equal
to the then-current challenge, yet the hit count is `-2147483648`, not `k`. -/
theorem C5_consecutive_hits_counterexample :
    loop_entry always_A = some entry_A ∧
      entry_A.button_found = 0 ∧ entry_A.button_miss = 0 ∧
      ∃ os g, run always_A entry_A (press_release XINPUT_GAMEPAD_A 2147483648) = some (os, g) ∧
        (∀ o ∈ os, o = .idle ∨ o = .hit) ∧ os.count .hit = 2147483648 ∧
        g.button_found = -2147483648 ∧ g.button_found ≠ 2147483648 := by
  refine ⟨by decide, rfl, rfl, ?_⟩
  obtain ⟨os, g, hr, hall, hcount, -⟩ := run_press_release_A 2147483648 entry_A rfl rfl rfl
  obtain ⟨g0, h0, -, hk0⟩ := loop_entry_after_hits always_A
  have hg0 : g0 = entry_A := by
    have : loop_entry always_A = some entry_A := by decide
    rw [this] at h0
    exact (Option.some.inj h0).symm
  subst hg0
  have hk := run_only_hits always_A _ _ _ _ 0 hk0 hr hall
  rw [hcount] at hk
  have hw : int_wrap ((0 + 2147483648 : Nat) : Int) = -2147483648 := by decide
  have hfound : g.button_found = -2147483648 := by rw [hk.1, hw]
  exact ⟨os, g, hr, hall, hcount, hfound, by rw [hfound]; decide⟩

/-- C5 (amended consecutive hits): for every stream of draws and every list of
polls, the loop is entered with challenge `c0` (the first draw) and counters
0/0 and runs through the polls; if every event of the run equals the
then-current challenge (every tick is idle or a hit: by `tick_spec` a tick is
idle exactly when `get_buttons` returns 0 and a hit exactly when it returns
the challenge) and there are `k` such events with
`k ≤ INT_MAX = 2147483647`, then afterwards the hit count is `k`,
the miss count is 0, the challenge is the draw `ck`, and the labels printed
are `button_str c0, ..., button_str ck` in that order. -/
theorem C5_consecutive_hits (distr : Nat → Fin 8) (polls : List XINPUT_STATE) :
    ∃ g0 os g, loop_entry distr = some g0 ∧ run distr g0 polls = some (os, g) ∧
      g0.button_to_find = get_random_button (distr 0) ∧
      g0.button_found = 0 ∧ g0.button_miss = 0 ∧
      ∀ k : Nat, (∀ o ∈ os, o = .idle ∨ o = .hit) → os.count .hit = k →
        (k : Int) ≤ INT_MAX →
        g.button_found = k ∧ g.button_miss = 0 ∧
          g.button_to_find = get_random_button (distr k) ∧
          (printed_labels g.cout).map some =
            (List.range (k + 1)).map (fun i => button_str (get_random_button (distr i))) := by
  obtain ⟨g0, h0, hg0, hk0⟩ := loop_entry_after_hits distr
  obtain ⟨os, g, hr, -⟩ := run_running distr polls g0 hg0
  refine ⟨g0, os, g, h0, hr, hk0.2.2.2.1, ?_, hk0.2.1, ?_⟩
  · rw [hk0.1]; decide
  · intro k hall hcount hmax
    have hk := run_only_hits distr polls g0 g os 0 hk0 hr hall
    rw [hcount, Nat.zero_add] at hk
    refine ⟨?_, hk.2.1, hk.2.2.2.1, hk.2.2.2.2⟩
    rw [hk.1]
    apply int_wrap_of_is_int
    constructor
    · unfold INT_MIN; omega
    · exact hmax

/-- Witness of C5: the draws are A, B, A; the player hits A, lets go, and hits
B: two hits, no miss, challenge A, labels `A`, `B`, `A`. -/
theorem C5_consecutive_hits_witness :
    ∃ g, run A_then_B entry_A [poll 1 0x1000, poll 2 0, poll 3 0x2000] =
        some ([.hit, .idle, .hit], g) ∧
      g.button_found = 2 ∧ g.button_miss = 0 ∧ g.button_to_find = XINPUT_GAMEPAD_A ∧
      printed_labels g.cout = ["A", "B", "A"] := by
  obtain ⟨g0, os, g, h0, hr, -, -, -, h⟩ :=
    C5_consecutive_hits A_then_B [poll 1 0x1000, poll 2 0, poll 3 0x2000]
  have e0 : loop_entry A_then_B = some entry_A := by decide
  rw [e0] at h0
  obtain rfl := Option.some.inj h0
  have eos : (run A_then_B entry_A [poll 1 0x1000, poll 2 0, poll 3 0x2000]).map Prod.fst =
      some [.hit, .idle, .hit] := by decide
  rw [hr] at eos
  obtain rfl : os = [.hit, .idle, .hit] := by simpa using eos
  obtain ⟨hf, hm, hc, hl⟩ := h 2 (by decide) (by decide) (by decide)
  refine ⟨g, hr, hf, hm, hc, ?_⟩
  have : (List.range (2 + 1)).map (fun i => button_str (get_random_button (A_then_B i))) =
      [some "A", some "B", some "A"] := by decide
  rw [this] at hl
  have hinj : Function.Injective (some : String → Option String) := Option.some_injective _
  exact hinj.list_map (by simpa using hl)

/-! ### C6 -/

/-- C6 (exit): from every loop state with `M` misses and `H` hits, a tick
whose event is the Back mask `0x0020` takes the `break`: it scores nothing
(both counters, the challenge and the vibration log are unchanged), the loop
ends there whatever polls would follow, and the program then prints the tally
`Errors: M/H` as its last output and exits with status 0. -/
theorem C6_back_exits (distr : Nat → Fin 8) (g : Game) (state : XINPUT_STATE)
    (rest : List XINPUT_STATE)
    (hev : (get_buttons g.xcontroller state).1 = XINPUT_GAMEPAD_BACK) :
    XINPUT_GAMEPAD_BACK = 0x0020 ∧
    ∃ g', tick distr g state = some (.stop, g') ∧
      g'.button_miss = g.button_miss ∧ g'.button_found = g.button_found ∧
      g'.button_to_find = g.button_to_find ∧ g'.vibrations = g.vibrations ∧
      run distr g (state :: rest) = some ([.stop], g') ∧
      main_loop distr g (state :: rest) =
        some
          { cout :=
              g.cout ++ ["\n"] ++
                ["Errors: ", toString g.button_miss, "/", toString g.button_found, "\n"]
            vibrations := g.vibrations
            status := some 0 } := by
  have ht : tick distr g state =
      some (.stop,
        { g with xcontroller := (get_buttons g.xcontroller state).2, cout := g.cout ++ ["\n"] }) := by
    rw [tick_eq]
    exact dispatch_back distr _ _ (by rw [hev]; decide)
  refine ⟨rfl, _, ht, rfl, rfl, rfl, rfl, run_cons_stop distr g _ state rest ht, ?_⟩
  simp [main_loop, run_cons_stop distr g _ state rest ht]

/-- Witness of C6: Back pressed at loop entry. -/
theorem C6_back_exits_witness :
    XINPUT_GAMEPAD_BACK = 0x0020 ∧
    ∃ g', tick always_A entry_A (poll 1 0x0020) = some (.stop, g') ∧
      g'.button_miss = entry_A.button_miss ∧ g'.button_found = entry_A.button_found ∧
      g'.button_to_find = entry_A.button_to_find ∧ g'.vibrations = entry_A.vibrations ∧
      run always_A entry_A (poll 1 0x0020 :: [poll 2 0x1000]) = some ([.stop], g') ∧
      main_loop always_A entry_A (poll 1 0x0020 :: [poll 2 0x1000]) =
        some
          { cout :=
              entry_A.cout ++ ["\n"] ++
                ["Errors: ", toString entry_A.button_miss, "/", toString entry_A.button_found,
                  "\n"]
            vibrations := entry_A.vibrations
            status := some 0 } :=
  C6_back_exits always_A entry_A (poll 1 0x0020) [poll 2 0x1000] (by decide)

/-! ### C7 -/

/-- C7 fails as stated: the event `0x1020` (Back together with A) is nonzero
and not equal to the Back mask, yet the tick takes the `break` and the loop
ends without scoring it. -/
theorem C7_only_back_counterexample :
    loop_entry always_A = some entry_A ∧ Running entry_A ∧
      (get_buttons entry_A.xcontroller (poll 1 0x1020)).1 = 0x1020 ∧
      (0x1020 : Nat) ≠ 0 ∧ 0x1020 ≠ XINPUT_GAMEPAD_BACK ∧
      (tick always_A entry_A (poll 1 0x1020)).map Prod.fst = some .stop ∧
      (run always_A entry_A [poll 1 0x1020, poll 2 0, poll 3 0x1000]).map
          (fun r => (r.1, r.2.button_found, r.2.button_miss)) = some ([.stop], 0, 0) := by
  decide

/-- C7 (amended): from every running state, a tick whose event `e` is nonzero
and does not contain the Back bit (`e & 0x0020 = 0`) does not end the loop: it
is scored as a hit when `e` equals the challenge (the hit counter is
incremented, the miss counter kept) and as a miss otherwise (the miss counter
is incremented, the hit counter and the challenge kept), and the loop goes on
with the next poll from a running state. -/
theorem C7_only_back_bit_exits (distr : Nat → Fin 8) (g : Game) (state : XINPUT_STATE)
    (e : Nat) (hrun : Running g)
    (hev : (get_buttons g.xcontroller state).1 = e)
    (he : e ≠ 0) (hb : e &&& XINPUT_GAMEPAD_BACK = 0) :
    ∃ o g', tick distr g state = some (o, g') ∧ o ≠ .stop ∧ Running g' ∧
      (e = g.button_to_find →
        o = .hit ∧ g'.button_found = int_incr g.button_found ∧
          g'.button_miss = g.button_miss) ∧
      (e ≠ g.button_to_find →
        o = .miss ∧ g'.button_miss = int_incr g.button_miss ∧
          g'.button_found = g.button_found ∧ g'.button_to_find = g.button_to_find) ∧
      ∀ rest, run distr g (state :: rest) =
        (run distr g' rest).map (fun r => (o :: r.1, r.2)) := by
  obtain ⟨label, next, -, -, ht⟩ := tick_spec distr g state hrun.1
  subst hev
  rw [if_neg he, if_neg (by simp [hb])] at ht
  by_cases heq : (get_buttons g.xcontroller state).1 = g.button_to_find
  · rw [if_pos heq] at ht
    refine ⟨_, _, ht, by decide, ?_, fun _ => ⟨rfl, rfl, rfl⟩, fun h => absurd heq h, ?_⟩
    · exact ⟨get_random_button_mem _, hrun.2.1, int_incr_is_int _⟩
    · intro rest
      exact run_cons_continue distr g _ _ state rest ht (by decide)
  · rw [if_neg heq] at ht
    refine ⟨_, _, ht, by decide, ?_, fun h => absurd h heq, fun _ => ⟨rfl, rfl, rfl, rfl⟩, ?_⟩
    · exact ⟨hrun.1, int_incr_is_int _, hrun.2.2⟩
    · intro rest
      exact run_cons_continue distr g _ _ state rest ht (by decide)

/-- Witness of C7: challenge A, the event B arrives and the loop goes on. -/
theorem C7_only_back_bit_exits_witness :
    ∃ o g', tick always_A entry_A (poll 1 0x2000) = some (o, g') ∧ o ≠ .stop ∧ Running g' ∧
      (0x2000 = entry_A.button_to_find →
        o = .hit ∧ g'.button_found = int_incr entry_A.button_found ∧
          g'.button_miss = entry_A.button_miss) ∧
      (0x2000 ≠ entry_A.button_to_find →
        o = .miss ∧ g'.button_miss = int_incr entry_A.button_miss ∧
          g'.button_found = entry_A.button_found ∧
          g'.button_to_find = entry_A.button_to_find) ∧
      ∀ rest, run always_A entry_A (poll 1 0x2000 :: rest) =
        (run always_A g' rest).map (fun r => (o :: r.1, r.2)) :=
  C7_only_back_bit_exits always_A entry_A (poll 1 0x2000) 0x2000 (by decide) (by decide)
    (by decide) (by decide)

/-! ### C8 -/

/-- C8 (challenge invariant): for every stream of distribution outputs in
`0..7` and every list of polls, the loop is entered, runs through the polls
without undefined behaviour, and in the state it reaches (the entry state for
the empty list) the challenge `button_to_find` is one of the eight values
LS `0x0100`, RS `0x0200`, A `0x1000`, B `0x2000`, X `0x4000`, Y `0x8000`,
LT `0x10000`, RT `0x20000`: nonzero, a power of two, without the Back bit. -/
theorem C8_challenge_invariant (distr : Nat → Fin 8) (polls : List XINPUT_STATE) :
    ∃ g0 os g, loop_entry distr = some g0 ∧ run distr g0 polls = some (os, g) ∧
      g.button_to_find ∈
        [0x0100, 0x0200, 0x1000, 0x2000, 0x4000, 0x8000, 0x10000, 0x20000] ∧
      g.button_to_find ≠ 0 ∧ (∃ i, g.button_to_find = 2 ^ i) ∧
      g.button_to_find &&& XINPUT_GAMEPAD_BACK = 0 := by
  obtain ⟨g0, h0, hg0⟩ := loop_entry_running distr
  obtain ⟨os, g, hr, hg⟩ := run_running distr polls g0 hg0
  obtain ⟨i, -, hi⟩ := challenge_one_bit _ hg.1
  exact ⟨g0, os, g, h0, hr, hg.1, challenge_ne_zero hg.1, ⟨i, hi⟩, challenge_no_back hg.1⟩

/-! ### C9 -/

/-- C9 (score monotonicity): from every running state whose two counters are
below `INT_MAX`, a tick is defined and neither counter decreases; the sum of
hits and misses grows by exactly 1 when the tick scores an event (a nonzero
event without the Back bit) and by 0 when there is no event or the loop
exits; no tick changes both counters. -/
theorem C9_score_monotone (distr : Nat → Fin 8) (g : Game) (state : XINPUT_STATE)
    (hrun : Running g) (hm : g.button_miss < INT_MAX) (hf : g.button_found < INT_MAX) :
    ∃ o g', tick distr g state = some (o, g') ∧
      g.button_found ≤ g'.button_found ∧ g.button_miss ≤ g'.button_miss ∧
      (o = .idle ↔ (get_buttons g.xcontroller state).1 = 0) ∧
      (o = .stop ↔ (get_buttons g.xcontroller state).1 &&& XINPUT_GAMEPAD_BACK ≠ 0) ∧
      (o.scored = true →
        g'.button_found + g'.button_miss = g.button_found + g.button_miss + 1) ∧
      (o.scored = false →
        g'.button_found = g.button_found ∧ g'.button_miss = g.button_miss) ∧
      ¬(g'.button_found ≠ g.button_found ∧ g'.button_miss ≠ g.button_miss) := by
  obtain ⟨label, next, -, -, ht⟩ := tick_spec distr g state hrun.1
  have hfi := int_incr_of_lt hrun.2.2 hf
  have hmi := int_incr_of_lt hrun.2.1 hm
  by_cases h0 : (get_buttons g.xcontroller state).1 = 0
  · rw [if_pos h0] at ht
    refine ⟨_, _, ht, le_refl _, le_refl _, by simp [h0], ?_, by simp [Outcome.scored],
      fun _ => ⟨rfl, rfl⟩, by simp⟩
    simp [h0]
  · rw [if_neg h0] at ht
    by_cases hb : (get_buttons g.xcontroller state).1 &&& XINPUT_GAMEPAD_BACK ≠ 0
    · rw [if_pos hb] at ht
      exact ⟨_, _, ht, le_refl _, le_refl _, by simp [h0], by simp [hb],
        by simp [Outcome.scored], fun _ => ⟨rfl, rfl⟩, by simp⟩
    · rw [if_neg hb] at ht
      by_cases heq : (get_buttons g.xcontroller state).1 = g.button_to_find
      · rw [if_pos heq] at ht
        refine ⟨_, _, ht, ?_, le_refl _, by simp [h0], by simp [hb], ?_,
          by simp [Outcome.scored], by simp⟩
        · simp only [hfi]; omega
        · intro _; simp only [hfi]; omega
      · rw [if_neg heq] at ht
        refine ⟨_, _, ht, le_refl _, ?_, by simp [h0], by simp [hb], ?_,
          by simp [Outcome.scored], by simp⟩
        · simp only [hmi]; omega
        · intro _; simp only [hmi]; omega

/-- Witness of C9: a miss at loop entry. -/
theorem C9_score_monotone_witness :
    ∃ o g', tick always_A entry_A (poll 1 0x2000) = some (o, g') ∧
      entry_A.button_found ≤ g'.button_found ∧ entry_A.button_miss ≤ g'.button_miss ∧
      (o = .idle ↔ (get_buttons entry_A.xcontroller (poll 1 0x2000)).1 = 0) ∧
      (o = .stop ↔
        (get_buttons entry_A.xcontroller (poll 1 0x2000)).1 &&& XINPUT_GAMEPAD_BACK ≠ 0) ∧
      (o.scored = true →
        g'.button_found + g'.button_miss = entry_A.button_found + entry_A.button_miss + 1) ∧
      (o.scored = false →
        g'.button_found = entry_A.button_found ∧ g'.button_miss = entry_A.button_miss) ∧
      ¬(g'.button_found ≠ entry_A.button_found ∧ g'.button_miss ≠ entry_A.button_miss) :=
  C9_score_monotone always_A entry_A (poll 1 0x2000) (by decide) (by decide) (by decide)

/-! ### C10 -/

/-- C10 fails as stated: at loop entry with challenge A, the tick whose event
is A is a hit, but no vibration is started: the log still holds only the
pulse started at connection.  Moreover, after 2147483647 hits the hit counter
holds `INT_MAX` and the next hit wraps it to `-2147483648` instead of
incrementing it. -/
theorem C10_hit_feedback_counterexample :
    loop_entry always_A = some entry_A ∧ Running entry_A ∧
      (get_buttons entry_A.xcontroller (poll 1 XINPUT_GAMEPAD_A)).1 = entry_A.button_to_find ∧
      (tick always_A entry_A (poll 1 XINPUT_GAMEPAD_A)).map
          (fun r => (r.1, r.2.button_found, r.2.vibrations)) =
        some (.hit, 1, entry_A.vibrations) ∧
      entry_A.vibrations = [(30000, 600)] ∧
      ∃ os g, run always_A entry_A (press_release XINPUT_GAMEPAD_A 2147483647) = some (os, g) ∧
        Outcome.stop ∉ os ∧ Running g ∧ g.button_found = 2147483647 ∧
        (get_buttons g.xcontroller (poll 1 XINPUT_GAMEPAD_A)).1 = g.button_to_find ∧
        (tick always_A g (poll 1 XINPUT_GAMEPAD_A)).map (fun r => (r.1, r.2.button_found)) =
          some (.hit, -2147483648) := by
  refine ⟨by decide, by decide, by decide, by decide, by decide, ?_⟩
  obtain ⟨os, g, hr, hall, hcount, hc, hlp, hbtr⟩ :=
    run_press_release_A 2147483647 entry_A rfl rfl rfl
  obtain ⟨g0, h0, -, hk0⟩ := loop_entry_after_hits always_A
  have hg0 : g0 = entry_A := by
    have : loop_entry always_A = some entry_A := by decide
    rw [this] at h0
    exact (Option.some.inj h0).symm
  subst hg0
  have hk := run_only_hits always_A _ _ _ _ 0 hk0 hr hall
  rw [hcount] at hk
  have hw : int_wrap ((0 + 2147483647 : Nat) : Int) = 2147483647 := by decide
  have hfound : g.button_found = 2147483647 := by rw [hk.1, hw]
  have hcm : g.button_to_find ∈ challenge_buttons := by rw [hc]; decide
  have hev : (get_buttons g.xcontroller (poll 1 XINPUT_GAMEPAD_A)).1 = g.button_to_find := by
    simp [get_buttons, hlp, hbtr, poll, held, hc]
  have hstop : Outcome.stop ∉ os := by
    intro h
    have := hall _ h
    simp at this
  obtain ⟨label, next, -, -, ht⟩ := tick_spec always_A g (poll 1 XINPUT_GAMEPAD_A) hcm
  rw [if_neg (by rw [hev]; exact challenge_ne_zero hcm),
    if_neg (by rw [hev]; simp [challenge_no_back hcm]), if_pos hev] at ht
  have hwrap : int_incr 2147483647 = -2147483648 := by decide
  refine ⟨os, g, hr, hstop, ⟨hcm, ?_, ?_⟩, hfound, hev, ?_⟩
  · rw [hk.2.1]; decide
  · rw [hfound]; decide
  · rw [ht]
    simp [hfound, hwrap]

/-- C10 (amended hit feedback): from every running state with challenge `c`
and hit count `H < INT_MAX`, a tick whose event equals `c` takes the hit
branch: the hit counter becomes `H + 1`, the miss counter is kept, and no
vibration is started (the vibration log is unchanged); the feedback of a hit
is the green `OK` line followed by the label of the next challenge. -/
theorem C10_hit_feedback (distr : Nat → Fin 8) (g : Game) (state : XINPUT_STATE)
    (hrun : Running g) (hf : g.button_found < INT_MAX)
    (hev : (get_buttons g.xcontroller state).1 = g.button_to_find) :
    ∃ g' label next, tick distr g state = some (.hit, g') ∧
      g'.button_found = g.button_found + 1 ∧ g'.button_miss = g.button_miss ∧
      g'.vibrations = g.vibrations ∧
      button_str g.button_to_find = some label ∧
      button_str g'.button_to_find = some next ∧
      g'.cout = g.cout ++ [spaces label, GREEN, "OK", RESET, "\n", next] := by
  obtain ⟨label, next, hl, hn, ht⟩ := tick_spec distr g state hrun.1
  rw [if_neg (by rw [hev]; exact challenge_ne_zero hrun.1),
    if_neg (by rw [hev]; simp [challenge_no_back hrun.1]), if_pos hev] at ht
  exact ⟨_, label, next, ht, int_incr_of_lt hrun.2.2 hf, rfl, rfl, hl, hn, rfl⟩

/-- Witness of C10: challenge A hit at loop entry. -/
theorem C10_hit_feedback_witness :
    ∃ g' label next, tick always_A entry_A (poll 1 0x1000) = some (.hit, g') ∧
      g'.button_found = entry_A.button_found + 1 ∧ g'.button_miss = entry_A.button_miss ∧
      g'.vibrations = entry_A.vibrations ∧
      button_str entry_A.button_to_find = some label ∧
      button_str g'.button_to_find = some next ∧
      g'.cout = entry_A.cout ++ [spaces label, GREEN, "OK", RESET, "\n", next] :=
  C10_hit_feedback always_A entry_A (poll 1 0x1000) (by decide) (by decide) (by decide)

/-! ### C11 -/

/-- A tick that polls a new packet with nothing held while a mask is
suppressed is idle and clears the suppression. -/
theorem tick_release (distr : Nat → Fin 8) (g : Game) (state : XINPUT_STATE)
    (hp : g.xcontroller.last_packet ≠ state.dwPacketNumber) (hh : held state = 0) :
    get_buttons g.xcontroller state = (0, { g.xcontroller with button_to_release := 0 }) ∧
      tick distr g state =
        some (.idle, { g with xcontroller := { g.xcontroller with button_to_release := 0 } }) := by
  have hg : get_buttons g.xcontroller state =
      (0, { g.xcontroller with button_to_release := 0 }) := by
    by_cases hr : g.xcontroller.button_to_release = 0
    · have : g.xcontroller = { g.xcontroller with button_to_release := 0 } := by
        cases hx : g.xcontroller
        rw [hx] at hr
        simp_all
      rw [← this]
      simp [get_buttons, hp, hr, hh]
    · simp [get_buttons, hp, hr, hh]
  refine ⟨hg, ?_⟩
  rw [tick_eq, hg]
  exact dispatch_zero distr _

/-- C11 (scenario 2 for every button): for every button `c` of the
eight-button set and packet numbers `0 < s < t`, from a state with the initial
controller, challenge `c` and counters 0/0, the three ticks polling
`[seq = s, held = c]`, `[seq = s, held = c]`, `[seq = t, held = 0]` are a hit,
an idle tick and an idle tick: one hit and no miss in total, and
`get_buttons` returns 0 on the third tick. -/
theorem C11_scenario_two (distr : Nat → Fin 8) (g : Game) (c s t : Nat)
    (st1 st2 st3 : XINPUT_STATE)
    (hc : c ∈ challenge_buttons) (hs : 0 < s) (hst : s < t)
    (hlp : g.xcontroller.last_packet = 0) (hbtr : g.xcontroller.button_to_release = 0)
    (hfind : g.button_to_find = c) (hfound : g.button_found = 0) (hmiss : g.button_miss = 0)
    (h1 : st1.dwPacketNumber = s ∧ held st1 = c)
    (h2 : st2.dwPacketNumber = s ∧ held st2 = c)
    (h3 : st3.dwPacketNumber = t ∧ held st3 = 0) :
    ∃ g1 g2 g3, tick distr g st1 = some (.hit, g1) ∧ tick distr g1 st2 = some (.idle, g2) ∧
      tick distr g2 st3 = some (.idle, g3) ∧
      (get_buttons g2.xcontroller st3).1 = 0 ∧
      run distr g [st1, st2, st3] = some ([.hit, .idle, .idle], g3) ∧
      g3.button_found = 1 ∧ g3.button_miss = 0 := by
  have hcm : g.button_to_find ∈ challenge_buttons := by rw [hfind]; exact hc
  have hp1 : g.xcontroller.last_packet ≠ st1.dwPacketNumber := by
    rw [hlp, h1.1]; omega
  have hg1 : get_buttons g.xcontroller st1 = (c, g.xcontroller) := by
    simp [get_buttons, hp1, hbtr, h1.2]
  obtain ⟨label, next, -, -, ht1⟩ := tick_spec distr g st1 hcm
  rw [hg1] at ht1
  simp only [] at ht1
  rw [if_neg (challenge_ne_zero hc), if_neg (by simp [challenge_no_back hc]),
    if_pos hfind.symm] at ht1
  obtain ⟨g1, ht1, hx1, hf1, hm1⟩ : ∃ g1, tick distr g st1 = some (.hit, g1) ∧
      g1.xcontroller = set_button_to_release g.xcontroller c ∧
      g1.button_found = int_incr g.button_found ∧ g1.button_miss = g.button_miss :=
    ⟨_, ht1, rfl, rfl, rfl⟩
  -- the second poll repeats the packet while `c` is suppressed
  have ht2 : tick distr g1 st2 = some (.idle, g1) := by
    apply tick_suppressed
    simp [hx1, set_button_to_release, h2.2, challenge_ne_zero hc]
  -- the third poll is a new packet with nothing held
  have ht3 := tick_release distr g1 st3
    (by rw [hx1]; simp only [set_button_to_release]; rw [hlp, h3.1]; omega) h3.2
  refine ⟨g1, g1, _, ht1, ht2, ht3.2, by rw [ht3.1], ?_, ?_, ?_⟩
  · rw [run_cons_continue distr g g1 .hit st1 _ ht1 (by decide),
      run_cons_continue distr g1 g1 .idle st2 _ ht2 (by decide),
      run_cons_continue distr g1 _ .idle st3 _ ht3.2 (by decide), run_nil]
    rfl
  · show g1.button_found = 1
    rw [hf1, hfound]; decide
  · show g1.button_miss = 0
    rw [hm1, hmiss]

/-- Witness of C11: the left trigger as target, polled with the trigger pulled
under packet 1 twice, then released under packet 2. -/
theorem C11_scenario_two_witness :
    ∃ g1 g2 g3, tick always_A entry_LT (poll_trigger 1 0 200) = some (.hit, g1) ∧
      tick always_A g1 (poll_trigger 1 0 200) = some (.idle, g2) ∧
      tick always_A g2 (poll 2 0) = some (.idle, g3) ∧
      (get_buttons g2.xcontroller (poll 2 0)).1 = 0 ∧
      run always_A entry_LT [poll_trigger 1 0 200, poll_trigger 1 0 200, poll 2 0] =
        some ([.hit, .idle, .idle], g3) ∧
      g3.button_found = 1 ∧ g3.button_miss = 0 :=
  C11_scenario_two always_A entry_LT XINPUT_GAMEPAD_LEFT_TRIGGER 1 2 (poll_trigger 1 0 200)
    (poll_trigger 1 0 200) (poll 2 0) (by decide) (by decide) (by decide) rfl rfl rfl rfl rfl
    (by decide) (by decide) (by decide)


/-! ### C12 -/

/-- C12 (hold suppression): for every nonzero mask `s` and every finite list of
samples whose held mask equals `s`, from a state with `button_to_release = s`
every `get_buttons` call returns 0 and leaves the controller unchanged
(`button_to_release` is still `s`), so every tick of the loop is idle and the
whole state is the same afterwards: no event is emitted while the suppressed
mask stays held. -/
theorem C12_hold_suppression (distr : Nat → Fin 8) (g : Game) (s : Nat)
    (samples : List XINPUT_STATE) (hs : s ≠ 0)
    (hbtr : g.xcontroller.button_to_release = s)
    (hall : ∀ st ∈ samples, held st = s) :
    (∀ st ∈ samples, get_buttons g.xcontroller st = (0, g.xcontroller)) ∧
      run distr g samples = some (List.replicate samples.length .idle, g) ∧
      g.xcontroller.button_to_release = s := by
  have hsup : ∀ st ∈ samples, held st &&& g.xcontroller.button_to_release ≠ 0 := by
    intro st hst
    rw [hall st hst, hbtr, Nat.and_self]
    exact hs
  refine ⟨?_, ?_, hbtr⟩
  · intro st hst
    have hr : g.xcontroller.button_to_release ≠ 0 := by rw [hbtr]; exact hs
    by_cases hp : g.xcontroller.last_packet = st.dwPacketNumber
    · simp [get_buttons, hp]
    · simp [get_buttons, hp, hr, hsup st hst]
  · clear hall
    induction samples with
    | nil => rfl
    | cons st rest ih =>
      have ht := tick_suppressed distr g st (hsup st (List.mem_cons_self _ _))
      rw [run_cons_continue distr g g .idle st rest ht (by decide),
        ih (fun st' h => hsup st' (List.mem_cons_of_mem _ h))]
      rfl

/-- Witness of C12: A is suppressed and stays held over three polls. -/
theorem C12_hold_suppression_witness :
    (∀ st ∈ [poll 1 0x1000, poll 2 0x1000, poll 3 0x1000],
        get_buttons { entry_A with xcontroller := ⟨0, 0, 0x1000⟩ }.xcontroller st =
          (0, { entry_A with xcontroller := ⟨0, 0, 0x1000⟩ }.xcontroller)) ∧
      run always_A { entry_A with xcontroller := ⟨0, 0, 0x1000⟩ }
          [poll 1 0x1000, poll 2 0x1000, poll 3 0x1000] =
        some (List.replicate [poll 1 0x1000, poll 2 0x1000, poll 3 0x1000].length .idle,
          { entry_A with xcontroller := ⟨0, 0, 0x1000⟩ }) ∧
      { entry_A with xcontroller := ⟨0, 0, 0x1000⟩ }.xcontroller.button_to_release = 0x1000 :=
  C12_hold_suppression always_A { entry_A with xcontroller := ⟨0, 0, 0x1000⟩ } 0x1000
    [poll 1 0x1000, poll 2 0x1000, poll 3 0x1000] (by decide) rfl (by decide)

/-! ### C13 -/

/-- C13 (re-arm after full release): from a running state with the initial
controller, for every nonzero mask `m` without the Back bit and packet numbers
`0 < s1 < s2 < s3`, the ticks polling `[s1, held = m]`, `[s2, held = 0]`,
`[s3, held = m]` emit the event `m` on the first tick, nothing on the second
and `m` again on the third: the first and the third tick are scored, two
scored events in total. -/
theorem C13_rearm_after_release (distr : Nat → Fin 8) (g : Game) (m s1 s2 s3 : Nat)
    (st1 st2 st3 : XINPUT_STATE) (hrun : Running g)
    (hlp : g.xcontroller.last_packet = 0) (hbtr : g.xcontroller.button_to_release = 0)
    (hm : m ≠ 0) (hback : m &&& XINPUT_GAMEPAD_BACK = 0)
    (h01 : 0 < s1) (h12 : s1 < s2) (h23 : s2 < s3)
    (h1 : st1.dwPacketNumber = s1 ∧ held st1 = m)
    (h2 : st2.dwPacketNumber = s2 ∧ held st2 = 0)
    (h3 : st3.dwPacketNumber = s3 ∧ held st3 = m) :
    ∃ o1 o3 g1 g2 g3, tick distr g st1 = some (o1, g1) ∧ tick distr g1 st2 = some (.idle, g2) ∧
      tick distr g2 st3 = some (o3, g3) ∧
      (get_buttons g.xcontroller st1).1 = m ∧ (get_buttons g1.xcontroller st2).1 = 0 ∧
      (get_buttons g2.xcontroller st3).1 = m ∧
      o1.scored = true ∧ o3.scored = true ∧
      run distr g [st1, st2, st3] = some ([o1, .idle, o3], g3) ∧
      [o1, .idle, o3].countP Outcome.scored = 2 := by
  have hp1 : g.xcontroller.last_packet ≠ st1.dwPacketNumber := by rw [hlp, h1.1]; omega
  have hg1 : (get_buttons g.xcontroller st1).1 = m := by
    simp [get_buttons, hp1, hbtr, h1.2]
  obtain ⟨o1, g1, ht1, hs1, -, hc1, hlp1, -⟩ :=
    tick_event distr g st1 hrun.1 (by rw [hg1]; exact hm) (by rw [hg1]; exact hback)
  have hp2 : g1.xcontroller.last_packet ≠ st2.dwPacketNumber := by
    rw [hlp1, hlp, h2.1]; omega
  obtain ⟨hg2, ht2⟩ := tick_release distr g1 st2 hp2 h2.2
  have hg3 : (get_buttons
      { g1 with xcontroller := { g1.xcontroller with button_to_release := 0 } }.xcontroller
      st3).1 = m := by
    have hp3 : g1.xcontroller.last_packet ≠ st3.dwPacketNumber := by
      rw [hlp1, hlp, h3.1]; omega
    simp [get_buttons, hp3, h3.2]
  obtain ⟨o3, g3, ht3, hs3, -⟩ :=
    tick_event distr { g1 with xcontroller := { g1.xcontroller with button_to_release := 0 } }
      st3 hc1 (by rw [hg3]; exact hm) (by rw [hg3]; exact hback)
  have hne1 : o1 ≠ .stop := by rintro rfl; exact absurd hs1 (by decide)
  have hne3 : o3 ≠ .stop := by rintro rfl; exact absurd hs3 (by decide)
  refine ⟨o1, o3, g1, _, g3, ht1, ht2, ht3, hg1, by rw [hg2], hg3, hs1, hs3, ?_, ?_⟩
  · rw [run_cons_continue distr g g1 o1 st1 _ ht1 hne1,
      run_cons_continue distr g1 _ .idle st2 _ ht2 (by decide),
      run_cons_continue distr _ g3 o3 st3 _ ht3 hne3, run_nil]
    rfl
  · have hidle : Outcome.scored .idle = false := rfl
    simp [List.countP_cons, hs1, hs3, hidle]

/-- Witness of C13: A pressed, released and pressed again at loop entry. -/
theorem C13_rearm_after_release_witness :
    ∃ o1 o3 g1 g2 g3, tick always_A entry_A (poll 1 0x1000) = some (o1, g1) ∧
      tick always_A g1 (poll 2 0) = some (.idle, g2) ∧
      tick always_A g2 (poll 3 0x1000) = some (o3, g3) ∧
      (get_buttons entry_A.xcontroller (poll 1 0x1000)).1 = 0x1000 ∧
      (get_buttons g1.xcontroller (poll 2 0)).1 = 0 ∧
      (get_buttons g2.xcontroller (poll 3 0x1000)).1 = 0x1000 ∧
      o1.scored = true ∧ o3.scored = true ∧
      run always_A entry_A [poll 1 0x1000, poll 2 0, poll 3 0x1000] =
        some ([o1, .idle, o3], g3) ∧
      [o1, .idle, o3].countP Outcome.scored = 2 :=
  C13_rearm_after_release always_A entry_A 0x1000 1 2 3 (poll 1 0x1000) (poll 2 0)
    (poll 3 0x1000) (by decide) rfl rfl (by decide) (by decide) (by decide) (by decide)
    (by decide) (by decide) (by decide) (by decide)


/-! ### C14 -/

/-- A mask meets the single bit `2 ^ i` exactly when its bit `i` is set. -/
theorem and_two_pow_ne_zero (x i : Nat) : x &&& 2 ^ i ≠ 0 ↔ x.testBit i = true := by
  constructor
  · intro h
    by_contra hb
    apply h
    apply Nat.eq_of_testBit_eq
    intro j
    rw [Nat.testBit_and, Nat.testBit_two_pow, Nat.zero_testBit]
    by_cases hij : i = j
    · subst hij
      simp [hb]
    · simp [hij]
  · intro hb h
    have := congrArg (fun y => Nat.testBit y i) h
    simp [Nat.testBit_two_pow, hb] at this

/-- The folded mask is the button word with one synthetic bit per pulled
trigger. -/
theorem held_eq (state : XINPUT_STATE) :
    held state =
      state.Gamepad.wButtons ||| (if state.Gamepad.bLeftTrigger ≠ 0 then 2 ^ 16 else 0) |||
        (if state.Gamepad.bRightTrigger ≠ 0 then 2 ^ 17 else 0) := by
  unfold held XINPUT_GAMEPAD_LEFT_TRIGGER XINPUT_GAMEPAD_RIGHT_TRIGGER
  by_cases hl : state.Gamepad.bLeftTrigger = 0 <;>
    by_cases hr : state.Gamepad.bRightTrigger = 0 <;> simp [hl, hr]

/-- The bits of the folded mask of a well-formed state. -/
theorem held_testBit (state : XINPUT_STATE) (hw : state.Gamepad.wButtons < 2 ^ 16) (j : Nat) :
    (held state).testBit j =
      if j < 16 then state.Gamepad.wButtons.testBit j
      else if j = 16 then decide (state.Gamepad.bLeftTrigger ≠ 0)
      else if j = 17 then decide (state.Gamepad.bRightTrigger ≠ 0)
      else false := by
  have hhigh : 16 ≤ j → state.Gamepad.wButtons.testBit j = false := by
    intro hj
    apply Nat.testBit_lt_two_pow
    exact Nat.lt_of_lt_of_le hw (Nat.pow_le_pow_right (by decide) hj)
  rw [held_eq, Nat.testBit_or, Nat.testBit_or]
  by_cases hl : state.Gamepad.bLeftTrigger = 0 <;>
    by_cases hr : state.Gamepad.bRightTrigger = 0
  all_goals
    simp only [hl, hr, ne_eq, not_true_eq_false, not_false_eq_true, if_true, if_false,
      Nat.zero_testBit, Nat.testBit_two_pow, Bool.or_false, decide_True, decide_False]
    by_cases h1 : j < 16
    · have h16 : ¬ 16 = j := by omega
      have h17 : ¬ 17 = j := by omega
      simp [h1, h16, h17]
    · have hh := hhigh (by omega)
      by_cases h16 : j = 16
      · subst h16; simp [hh]
      · by_cases h17 : j = 17
        · subst h17; simp [hh]
        · have a : ¬ 16 = j := fun h => h16 h.symm
          have b : ¬ 17 = j := fun h => h17 h.symm
          simp [h1, h16, h17, a, b, hh]

/-- C14 (trigger folding): for every polled state with a 16-bit button word
`w` and 8-bit trigger values `lt`, `rt`, when `get_buttons` is short-circuited
neither by the packet check nor by the suppression check, it returns
`w | (lt ? 0x10000 : 0) | (rt ? 0x20000 : 0)`: bit 16 of the result is set
exactly when `lt` is nonzero, bit 17 exactly when `rt` is nonzero, and the low
16 bits of the result are `w`. -/
theorem C14_trigger_folding (xc : XController) (state : XINPUT_STATE) (hwf : state.wf)
    (hp : xc.last_packet ≠ state.dwPacketNumber)
    (hsup : ¬(xc.button_to_release ≠ 0 ∧ held state &&& xc.button_to_release ≠ 0)) :
    (get_buttons xc state).1 =
        state.Gamepad.wButtons |||
          (if state.Gamepad.bLeftTrigger ≠ 0 then XINPUT_GAMEPAD_LEFT_TRIGGER else 0) |||
          (if state.Gamepad.bRightTrigger ≠ 0 then XINPUT_GAMEPAD_RIGHT_TRIGGER else 0) ∧
      ((get_buttons xc state).1 &&& 0x10000 ≠ 0 ↔ state.Gamepad.bLeftTrigger ≠ 0) ∧
      ((get_buttons xc state).1 &&& 0x20000 ≠ 0 ↔ state.Gamepad.bRightTrigger ≠ 0) ∧
      (get_buttons xc state).1 % 2 ^ 16 = state.Gamepad.wButtons ∧
      XINPUT_GAMEPAD_LEFT_TRIGGER = 0x10000 ∧ XINPUT_GAMEPAD_RIGHT_TRIGGER = 0x20000 := by
  have hw : state.Gamepad.wButtons < 2 ^ 16 := hwf.2.1
  have hg : (get_buttons xc state).1 = held state := by
    by_cases hr : xc.button_to_release = 0
    · simp [get_buttons, hp, hr]
    · have hh : held state &&& xc.button_to_release = 0 := by
        by_contra hne
        exact hsup ⟨hr, hne⟩
      simp [get_buttons, hp, hr, hh]
  rw [hg]
  refine ⟨?_, ?_, ?_, ?_, rfl, rfl⟩
  · rw [held_eq]; rfl
  · have h16 : (0x10000 : Nat) = 2 ^ 16 := by decide
    rw [h16, and_two_pow_ne_zero, held_testBit state hw]
    simp
  · have h17 : (0x20000 : Nat) = 2 ^ 17 := by decide
    rw [h17, and_two_pow_ne_zero, held_testBit state hw]
    simp
  · apply Nat.eq_of_testBit_eq
    intro j
    rw [Nat.testBit_mod_two_pow, held_testBit state hw]
    by_cases h1 : j < 16
    · simp [h1]
    · simp only [h1, decide_False, Bool.false_and, if_false]
      symm
      apply Nat.testBit_lt_two_pow
      exact Nat.lt_of_lt_of_le hw (Nat.pow_le_pow_right (by decide) (by omega))

/-- Witness of C14: A held with the left trigger at its smallest nonzero
value. -/
theorem C14_trigger_folding_witness :
    (get_buttons (XController.new XUSER_DEFAULT) (poll_trigger 1 0x1000 1)).1 =
        (poll_trigger 1 0x1000 1).Gamepad.wButtons |||
          (if (poll_trigger 1 0x1000 1).Gamepad.bLeftTrigger ≠ 0 then
            XINPUT_GAMEPAD_LEFT_TRIGGER else 0) |||
          (if (poll_trigger 1 0x1000 1).Gamepad.bRightTrigger ≠ 0 then
            XINPUT_GAMEPAD_RIGHT_TRIGGER else 0) ∧
      ((get_buttons (XController.new XUSER_DEFAULT) (poll_trigger 1 0x1000 1)).1 &&& 0x10000 ≠ 0 ↔
        (poll_trigger 1 0x1000 1).Gamepad.bLeftTrigger ≠ 0) ∧
      ((get_buttons (XController.new XUSER_DEFAULT) (poll_trigger 1 0x1000 1)).1 &&& 0x20000 ≠ 0 ↔
        (poll_trigger 1 0x1000 1).Gamepad.bRightTrigger ≠ 0) ∧
      (get_buttons (XController.new XUSER_DEFAULT) (poll_trigger 1 0x1000 1)).1 % 2 ^ 16 =
        (poll_trigger 1 0x1000 1).Gamepad.wButtons ∧
      XINPUT_GAMEPAD_LEFT_TRIGGER = 0x10000 ∧ XINPUT_GAMEPAD_RIGHT_TRIGGER = 0x20000 :=
  C14_trigger_folding (XController.new XUSER_DEFAULT) (poll_trigger 1 0x1000 1) (by decide)
    (by decide) (by decide)


/-! ### C15 -/

/-- C15 (unbiased draw table): `get_random_button` sends the indices `0..7`
one-to-one onto the eight-button set, in the order LS, RS, A, B, X, Y, LT, RT:
it is injective, every value lies in the set, every button of the set is the
image of exactly one index, so one index out of eight gives each button
(frequency 1/8 under a uniform index); and what the loop draws on a hit
depends on the drawn index alone. -/
theorem C15_draw_table :
    List.map get_random_button (List.finRange 8) =
        [XINPUT_GAMEPAD_LEFT_SHOULDER, XINPUT_GAMEPAD_RIGHT_SHOULDER, XINPUT_GAMEPAD_A,
          XINPUT_GAMEPAD_B, XINPUT_GAMEPAD_X, XINPUT_GAMEPAD_Y, XINPUT_GAMEPAD_LEFT_TRIGGER,
          XINPUT_GAMEPAD_RIGHT_TRIGGER] ∧
      Function.Injective get_random_button ∧
      (∀ i, get_random_button i ∈ challenge_buttons) ∧
      (∀ c ∈ challenge_buttons, ∃! i, get_random_button i = c) ∧
      (∀ c ∈ challenge_buttons,
        ((Finset.univ.filter (fun i => get_random_button i = c)).card : ℚ) /
          (Fintype.card (Fin 8) : ℚ) = 1 / 8) ∧
      (∀ (d1 d2 : Nat → Fin 8) (n1 n2 : Nat), d1 n1 = d2 n2 →
        get_random_button (d1 n1) = get_random_button (d2 n2)) := by
  have hinj : Function.Injective get_random_button := by
    intro i j
    revert i j
    decide
  have hcard : ∀ c ∈ challenge_buttons,
      (Finset.univ.filter (fun i => get_random_button i = c)).card = 1 := by
    decide
  refine ⟨by decide, hinj, get_random_button_mem, ?_, ?_, ?_⟩
  · intro c hc
    have hex : ∃ i, get_random_button i = c := by
      revert c
      decide
    obtain ⟨i, hi⟩ := hex
    exact ⟨i, hi, fun j hj => hinj (hj.trans hi.symm)⟩
  · intro c hc
    rw [hcard c hc]
    norm_num
  · intro d1 d2 n1 n2 h
    rw [h]

/-! ### C16 -/

/-- The labels of the eight buttons and their padding. -/
theorem challenge_padding :
    ∀ c ∈ challenge_buttons,
      (button_str c).map
          (fun l => decide (l.length ≤ 3 ∧ size_sub 3 l.length = 3 - l.length ∧
            size_sub 3 l.length + l.length = 3 ∧
            (spaces l).length = size_sub 3 l.length ∧
            (spaces l ++ l).length = 3)) = some true := by
  decide

/-- C16 (labels and padding): `button_str` returns `"LS"`, `"RS"`, `"A"`,
`"B"`, `"X"`, `"Y"`, `"LT"`, `"RT"` for the eight challenge buttons and never
its final `return NULL` there; for every stream of draws and every list of
polls the challenge reached has a label of at most 3 characters, the
`size_t` difference `3 - size` of line 179 does not wrap (it is the natural
number `3 - size`), and the padding followed by the label is exactly 3
characters wide. -/
theorem C16_labels_and_padding (distr : Nat → Fin 8) (polls : List XINPUT_STATE) :
    List.map button_str challenge_buttons =
        [some "LS", some "RS", some "A", some "B", some "X", some "Y", some "LT", some "RT"] ∧
      ∃ g0 os g label, loop_entry distr = some g0 ∧ run distr g0 polls = some (os, g) ∧
        button_str g.button_to_find = some label ∧ label.length ≤ 3 ∧
        size_sub 3 label.length + label.length = 3 ∧
        (spaces label).length = 3 - label.length ∧
        (spaces label ++ label).length = 3 := by
  refine ⟨by decide, ?_⟩
  obtain ⟨g0, h0, hg0⟩ := loop_entry_running distr
  obtain ⟨os, g, hr, hg⟩ := run_running distr polls g0 hg0
  obtain ⟨label, hl⟩ := challenge_label hg.1
  have h := challenge_padding _ hg.1
  rw [hl] at h
  simp only [Option.map_some', Option.some.injEq, decide_eq_true_eq] at h
  obtain ⟨h1, h2, h3, h4, h5⟩ := h
  exact ⟨g0, os, g, label, h0, hr, hl, h1, h3, by rw [h4, h2], h5⟩


/-! ### C17 -/

/-- The method `get_buttons` never changes `last_packet`. -/
theorem get_buttons_last_packet (xc : XController) (state : XINPUT_STATE) :
    (get_buttons xc state).2.last_packet = xc.last_packet := by
  rcases get_buttons_controller xc state with h | h <;> rw [h]

/-- An iteration from a running state is defined, ends in a running state and
keeps `last_packet`. -/
theorem tick_last_packet (distr : Nat → Fin 8) (g : Game) (state : XINPUT_STATE)
    (hrun : Running g) :
    ∃ o g', tick distr g state = some (o, g') ∧ Running g' ∧
      g'.xcontroller.last_packet = g.xcontroller.last_packet := by
  obtain ⟨label, next, -, -, ht⟩ := tick_spec distr g state hrun.1
  have hlp := get_buttons_last_packet g.xcontroller state
  rw [ht]
  split_ifs
  · exact ⟨_, _, rfl, hrun, hlp⟩
  · exact ⟨_, _, rfl, hrun, hlp⟩
  · exact ⟨_, _, rfl, ⟨get_random_button_mem _, hrun.2.1, int_incr_is_int _⟩, hlp⟩
  · exact ⟨_, _, rfl, ⟨hrun.1, int_incr_is_int _, hrun.2.2⟩, hlp⟩

/-- The loop from a running state keeps `last_packet`, whatever it polls. -/
theorem run_last_packet (distr : Nat → Fin 8) (polls : List XINPUT_STATE) :
    ∀ g : Game, Running g →
      ∃ os g', run distr g polls = some (os, g') ∧ Running g' ∧
        g'.xcontroller.last_packet = g.xcontroller.last_packet := by
  induction polls with
  | nil => intro g hg; exact ⟨[], g, rfl, hg, rfl⟩
  | cons state rest ih =>
    intro g hg
    obtain ⟨o, g1, ht, hg1, hlp1⟩ := tick_last_packet distr g state hg
    by_cases ho : o = .stop
    · subst ho
      exact ⟨_, _, run_cons_stop distr g g1 state rest ht, hg1, hlp1⟩
    · obtain ⟨os, g2, hr, hg2, hlp2⟩ := ih g1 hg1
      refine ⟨o :: os, g2, ?_, hg2, hlp2.trans hlp1⟩
      rw [run_cons_continue distr g g1 o state rest ht ho, hr]
      rfl

/-- C17 (disconnected poll is neutral): for every stream of draws and every
list of polls, in the state the loop has reached, a tick that polls the
all-zero state (packet number 0, no button, both triggers 0: the zeroed
buffer of a failed `XInputGetState`) gets 0 from `get_buttons`, which leaves
the controller (`last_packet`, `button_to_release`) unchanged, and the tick is
idle and leaves the whole loop state (hit count, miss count, challenge
included) unchanged. -/
theorem C17_disconnected_poll_neutral (distr : Nat → Fin 8) (polls : List XINPUT_STATE) :
    zero_state.dwPacketNumber = 0 ∧ held zero_state = 0 ∧
      ∃ g0 os g, loop_entry distr = some g0 ∧ run distr g0 polls = some (os, g) ∧
        get_buttons g.xcontroller zero_state = (0, g.xcontroller) ∧
        tick distr g zero_state = some (.idle, g) := by
  refine ⟨rfl, by decide, ?_⟩
  obtain ⟨label, -, h0⟩ := loop_entry_some distr
  obtain ⟨g0, h0', hg0⟩ := loop_entry_running distr
  obtain ⟨os, g, hr, -, hlp⟩ := run_last_packet distr polls g0 hg0
  have hlp0 : g0.xcontroller.last_packet = 0 := by
    rw [h0] at h0'
    rw [← Option.some.inj h0']
    rfl
  have hz : g.xcontroller.last_packet = zero_state.dwPacketNumber := by
    rw [hlp, hlp0]; rfl
  refine ⟨g0, os, g, h0', hr, ?_, tick_same_packet distr g zero_state hz⟩
  simp [get_buttons, hz]

/-! ### C18 -/

/-- C18 (startup failure): when `is_connected` is false at startup, whatever
the generator and the polls that would follow, the program prints the banner
and the red `Disconnected` line and exits with status 1; nothing of the loop
happens: no poll is consumed (the result is the same with no poll at all), no
label is printed and no vibration is started. -/
theorem C18_startup_failure (dwResult : Nat) (distr : Nat → Fin 8)
    (polls : List XINPUT_STATE) (h : is_connected dwResult = false) :
    main dwResult distr polls =
        some
          { cout := ["XInput!", "\n", RED, "Disconnected", RESET, "\n"]
            vibrations := []
            status := some 1 } ∧
      main dwResult distr polls = main dwResult always_A [] ∧
      printed_labels ["XInput!", "\n", RED, "Disconnected", RESET, "\n"] = [] := by
  refine ⟨?_, ?_, by decide⟩
  · simp [main, h]
  · simp [main, h]

/-- Witness of C18: `XInputGetState` reports that no device is connected. -/
theorem C18_startup_failure_witness :
    main not_connected_status A_then_B [poll 1 0x1000, poll 2 0x0020] =
        some
          { cout := ["XInput!", "\n", RED, "Disconnected", RESET, "\n"]
            vibrations := []
            status := some 1 } ∧
      main not_connected_status A_then_B [poll 1 0x1000, poll 2 0x0020] =
        main not_connected_status always_A [] ∧
      printed_labels ["XInput!", "\n", RED, "Disconnected", RESET, "\n"] = [] :=
  C18_startup_failure not_connected_status A_then_B [poll 1 0x1000, poll 2 0x0020] (by decide)

/-! ### C19 -/

/-- C19 (code evaluated at the failing input): the freshly constructed
controller has `last_packet = 0`; `get_buttons` processes a sample with packet
number 5, which differs from it, and afterwards `last_packet` is still 0, not
5.  In general no call of `get_buttons` changes `last_packet`. -/
theorem C19_last_packet_not_updated :
    (XController.new XUSER_DEFAULT).last_packet ≠ (poll 5 0x1000).dwPacketNumber ∧
      (get_buttons (XController.new XUSER_DEFAULT) (poll 5 0x1000)).1 = 0x1000 ∧
      (get_buttons (XController.new XUSER_DEFAULT) (poll 5 0x1000)).2.last_packet = 0 ∧
      (get_buttons (XController.new XUSER_DEFAULT) (poll 5 0x1000)).2.last_packet ≠
        (poll 5 0x1000).dwPacketNumber ∧
      ∀ (xc : XController) (state : XINPUT_STATE),
        (get_buttons xc state).2.last_packet = xc.last_packet :=
  ⟨by decide, by decide, by decide, by decide, get_buttons_last_packet⟩

/-! ### C20 -/

/-- C20 (an event never overlaps the suppressed mask): for every controller
state and sample, a nonzero value returned by `get_buttons` is the folded held
mask, shares no bit with the `button_to_release` held before the call, and
`button_to_release` is 0 right after the call; conversely, while the held mask
shares a bit with `button_to_release` the call returns 0, so nothing held then
is reported, a Back press included. -/
theorem C20_event_disjoint_from_suppressed (xc : XController) (state : XINPUT_STATE) :
    ((get_buttons xc state).1 ≠ 0 →
        (get_buttons xc state).1 = held state ∧
          (get_buttons xc state).1 &&& xc.button_to_release = 0 ∧
          (get_buttons xc state).2.button_to_release = 0) ∧
      (held state &&& xc.button_to_release ≠ 0 →
        (get_buttons xc state).1 = 0 ∧
          (get_buttons xc state).1 &&& XINPUT_GAMEPAD_BACK = 0) := by
  by_cases hp : xc.last_packet = state.dwPacketNumber
  · simp [get_buttons, hp]
  · by_cases hr : xc.button_to_release = 0
    · simp [get_buttons, hp, hr]
    · by_cases hh : held state &&& xc.button_to_release = 0
      · simp [get_buttons, hp, hr, hh]
      · simp [get_buttons, hp, hr, hh]

/-- Witness of C20: A is suppressed; B alone is reported and clears the
suppression, while Back held together with A is not reported. -/
theorem C20_event_disjoint_from_suppressed_witness :
    ((get_buttons ⟨0, 0, 0x1000⟩ (poll 1 0x2000)).1 = held (poll 1 0x2000) ∧
        (get_buttons ⟨0, 0, 0x1000⟩ (poll 1 0x2000)).1 &&&
          (⟨0, 0, 0x1000⟩ : XController).button_to_release = 0 ∧
        (get_buttons ⟨0, 0, 0x1000⟩ (poll 1 0x2000)).2.button_to_release = 0) ∧
      ((get_buttons ⟨0, 0, 0x1000⟩ (poll 1 0x1020)).1 = 0 ∧
        (get_buttons ⟨0, 0, 0x1000⟩ (poll 1 0x1020)).1 &&& XINPUT_GAMEPAD_BACK = 0) :=
  ⟨(C20_event_disjoint_from_suppressed ⟨0, 0, 0x1000⟩ (poll 1 0x2000)).1 (by decide),
    (C20_event_disjoint_from_suppressed ⟨0, 0, 0x1000⟩ (poll 1 0x1020)).2 (by decide)⟩

end XInput
